import Mathlib

/-!
# VMManager: software page-table walker and builder

A shallow embedding of `runtime/common/mem_manager.cpp` (class `VMManager`).

* Machine integers are naturals; every `uint64_t` expression that can wrap is
  reduced modulo `U64 = 2 ^ 64` at the place where the C++ expression wraps.
* The build-time constants of `VX_config.h` and the field layouts of `vAddr_t`
  and `PTE_t` (declared in `mem.h`) are not part of the translated sources;
  they are the fields of `Config`, and every theorem is stated for an
  arbitrary `Config` unless it evaluates the code at a concrete one.
* The external collaborators (`RAM`, `Processor`, `MemoryAllocator`) are
  modelled by the narrow contract the manager uses.
-/

namespace Vortex

/-! ## Configuration constants -/

/-- Number of values of a `uint64_t`. -/
def U64 : Nat := 2 ^ 64

/-- Build-time constants consumed by `VMManager` (macros of `VX_config.h`), together
with the field layout of the two codec types of `mem.h`. None of them is defined in
the translated sources, so they are parameters. -/
structure Config where
  /-- The macro `MEM_PAGE_SIZE`. -/
  MEM_PAGE_SIZE : Nat
  /-- The macro `MEM_PAGE_LOG2_SIZE`. -/
  MEM_PAGE_LOG2_SIZE : Nat
  /-- The macro `CACHE_BLOCK_SIZE`. -/
  CACHE_BLOCK_SIZE : Nat
  /-- The macro `PT_LEVEL`, the number of page-table levels. -/
  PT_LEVEL : Nat
  /-- The macro `PT_SIZE`, the size in bytes of one page-table node. -/
  PT_SIZE : Nat
  /-- The macro `PTE_SIZE`, the size in bytes of one entry. -/
  PTE_SIZE : Nat
  /-- The macro `PT_SIZE_LIMIT`. -/
  PT_SIZE_LIMIT : Nat
  /-- The macro `GLOBAL_MEM_SIZE`. -/
  GLOBAL_MEM_SIZE : Nat
  /-- The macro `PAGE_TABLE_BASE_ADDR`. -/
  PAGE_TABLE_BASE_ADDR : Nat
  /-- The macro `ALLOC_BASE_ADDR`. -/
  ALLOC_BASE_ADDR : Nat
  /-- The macro `USER_BASE_ADDR`. -/
  USER_BASE_ADDR : Nat
  /-- The macro `STARTUP_ADDR`. -/
  STARTUP_ADDR : Nat
  /-- The mode constant `BARE`. -/
  BARE : Nat
  /-- The macro `VM_ADDR_MODE`. -/
  VM_ADDR_MODE : Nat
  /-- The flag constant `VX_MEM_READ_WRITE`. -/
  VX_MEM_READ_WRITE : Int
  /-- Width in bits of one per-level index field of `vAddr_t`. -/
  VPN_BITS : Nat
  /-- Bit position of the read flag in `PTE_t`. -/
  PTE_R : Nat
  /-- Bit position of the write flag in `PTE_t`. -/
  PTE_W : Nat
  /-- Bit position of the execute flag in `PTE_t`. -/
  PTE_X : Nat
  /-- Lowest bit of the physical-page-number field of `PTE_t`. -/
  PTE_PPN_LO : Nat
  /-- Width in bits of the physical-page-number field of `PTE_t`. -/
  PTE_PPN_BITS : Nat

/-! ## Collaborators -/

/-- The simulated RAM as the manager uses it: a byte store and the access-control
enforcement flag set by `enable_acl`. -/
structure RAM where
  /-- The byte stored at each address (only its value modulo 256 is ever read). -/
  mem : Nat → Nat
  /-- Whether access control is currently enforced. -/
  check_acl : Bool

/-- The little-endian value of the `size` bytes at `addr`: what
`ram_.read(reinterpret_cast<uint8_t*>(&value), addr, size)` leaves in a zeroed `value`
on a little-endian host. -/
def RAM.read (ram : RAM) (addr : Nat) : Nat → Nat
  | 0 => 0
  | size + 1 => ram.mem addr % 256 + 256 * RAM.read ram (addr + 1) size

/-- The call `ram_.write(data, addr, size)`: byte `k` of the buffer goes to `addr + k`. -/
def RAM.write (ram : RAM) (data : Nat → Nat) (addr size : Nat) : RAM :=
  { ram with mem := fun a => if addr ≤ a ∧ a < addr + size then data (a - addr) else ram.mem a }

/-- The call `ram_.enable_acl(enable)`. -/
def RAM.enable_acl (ram : RAM) (enable : Bool) : RAM :=
  { ram with check_acl := enable }

/-- Byte `k` of the object representation of a `uint64_t` on a little-endian host. -/
def u64_byte (value k : Nat) : Nat := value / 256 ^ k % 256

/-- The part of the processor model the manager reads: whether the translation root
is unset, the SATP mode and the root page number. -/
structure Processor where
  /-- Result of `is_satp_unset()`. -/
  satp_unset : Bool
  /-- Result of `get_satp_mode()`. -/
  satp_mode : Nat
  /-- Result of `get_base_ppn()`. -/
  base_ppn : Nat

/-- What one call of `MemoryAllocator::allocate(size, &addr)` answers: its return value
and the value the out-parameter holds afterwards. -/
structure AllocReply where
  /-- Return value; 0 is success. -/
  status : Int
  /-- Content of the out-parameter after the call. -/
  addr : Nat

/-- Modelled from the spec: `MemoryAllocator` (`mem_alloc.h`) is an external
collaborator offering `allocate(size) -> address` (which may fail) and
`reserve(address, size) -> success|failure`. Its policy is not fixed by the spec, so an
allocator is the sequence of answers it gives together with the number of calls served
so far. -/
structure MemoryAllocator where
  /-- Answer to the `n`-th call of `allocate`. -/
  allocate_reply : Nat → AllocReply
  /-- Number of `allocate` calls served. -/
  allocated : Nat
  /-- Answer to the `n`-th call of `reserve`; 0 is success. -/
  reserve_reply : Nat → Int
  /-- Number of `reserve` calls served. -/
  reserved : Nat

/-- The call `allocate(size, &addr)`: the answer and the allocator afterwards. -/
def MemoryAllocator.allocate (a : MemoryAllocator) (_size : Nat) : AllocReply × MemoryAllocator :=
  (a.allocate_reply a.allocated, { a with allocated := a.allocated + 1 })

/-- The call `reserve(addr, size)`: the status and the allocator afterwards. -/
def MemoryAllocator.reserve (a : MemoryAllocator) (_addr _size : Nat) : Int × MemoryAllocator :=
  (a.reserve_reply a.reserved, { a with reserved := a.reserved + 1 })

/-! ## Codec types of `mem.h` -/

/-- Modelled from the spec: `vAddr_t` (declared in `mem.h`) decodes a virtual address
into per-level index fields of fixed width plus a page-offset field; `vpn[i]` is the
field of level `i`, level 0 sitting directly above the page offset. -/
def vAddr_vpn (cfg : Config) (address i : Nat) : Nat :=
  (address >>> (cfg.MEM_PAGE_LOG2_SIZE + i * cfg.VPN_BITS)) % 2 ^ cfg.VPN_BITS

/-- Modelled from the spec: the page-offset field `pgoff` of `vAddr_t`. -/
def vAddr_pgoff (cfg : Config) (address : Nat) : Nat :=
  address % 2 ^ cfg.MEM_PAGE_LOG2_SIZE

/-- The decoded fields of a page-table entry that `page_table_walk` reads. -/
structure PTE_t where
  /-- The raw word. -/
  pte_bytes : Nat
  /-- Valid flag. -/
  v : Bool
  /-- Read flag. -/
  r : Bool
  /-- Write flag. -/
  w : Bool
  /-- Execute flag. -/
  x : Bool
  /-- Physical page number. -/
  ppn : Nat
deriving DecidableEq

/-- Modelled from the spec: the constructor `PTE_t(pte_bytes)` (declared in `mem.h`)
decodes a word into valid, read, write, execute and physical-page-number. The valid
flag is bit 0, the bit `update_page_table` tests (`pte & 1`) and sets (`| 1`); the other
positions come from the configuration. -/
def PTE_t.decode (cfg : Config) (pte_bytes : Nat) : PTE_t :=
  { pte_bytes := pte_bytes
    v := pte_bytes.testBit 0
    r := pte_bytes.testBit cfg.PTE_R
    w := pte_bytes.testBit cfg.PTE_W
    x := pte_bytes.testBit cfg.PTE_X
    ppn := (pte_bytes >>> cfg.PTE_PPN_LO) % 2 ^ cfg.PTE_PPN_BITS }

/-! ## The manager -/

/-- The state of a `VMManager` together with the collaborators it holds by reference. -/
structure VMManager where
  /-- The processor model. -/
  processor_ : Processor
  /-- The simulated RAM. -/
  ram_ : RAM
  /-- Allocator of page-table storage. -/
  page_table_mem_ : MemoryAllocator
  /-- Allocator of the virtual window. -/
  virtual_mem_ : MemoryAllocator
  /-- The address-mapping cache, physical page number to virtual page number. -/
  addr_mapping : List (Nat × Nat)

/-- The assignment `addr_mapping[k] = v` of `std::unordered_map`. -/
def map_assign (m : List (Nat × Nat)) (k v : Nat) : List (Nat × Nat) :=
  (k, v) :: m.filter (fun e => e.1 != k)

/-- The method `get_base_ppn`. -/
def get_base_ppn (m : VMManager) : Nat := m.processor_.base_ppn

/-- The method `get_mode`. -/
def get_mode (m : VMManager) : Nat := m.processor_.satp_mode

/-- The method `get_pte_address`, in `uint64_t` arithmetic. -/
def get_pte_address (cfg : Config) (base_ppn vpn : Nat) : Nat :=
  (base_ppn * cfg.PT_SIZE + vpn * cfg.PTE_SIZE) % U64

/-- The method `read_pte`: `sizeof(uint64_t)` bytes at `addr`. -/
def read_pte (m : VMManager) (addr : Nat) : Nat := m.ram_.read addr 8

/-- The method `write_pte`: access control is switched off, the eight bytes of `value`
are written, access control is switched on. -/
def write_pte (m : VMManager) (addr value : Nat) : VMManager :=
  { m with ram_ := ((m.ram_.enable_acl false).write (u64_byte value) addr 8).enable_acl true }

/-- The method `need_trans`. -/
def need_trans (cfg : Config) (m : VMManager) (dev_pAddr : Nat) : Bool :=
  if m.processor_.satp_unset || get_mode m == cfg.BARE then false
  else if cfg.PAGE_TABLE_BASE_ADDR ≤ dev_pAddr then false
  else if dev_pAddr < cfg.USER_BASE_ADDR then false
  else !(cfg.STARTUP_ADDR ≤ dev_pAddr && dev_pAddr ≤ cfg.STARTUP_ADDR + 0x40000)

/-- The three page faults `page_table_walk` throws, by message. -/
inductive PageFault where
  /-- "Page Fault : Attempted to access invalid entry." -/
  | invalid_entry
  /-- "Page Fault : No leaf node found." -/
  | no_leaf
  /-- "Page Fault : TYPE LOAD, Incorrect permissions." -/
  | load_permission
deriving DecidableEq

/-- How a call of `page_table_walk` ends. -/
inductive WalkResult where
  /-- The call returns a physical address. -/
  | ret (paddr : Nat)
  /-- The call throws `Page_Fault_Exception`. -/
  | page_fault (kind : PageFault)
  /-- The assertion on the uninitialised pattern `0xbaadf00d` fails. -/
  | assert_fail
deriving DecidableEq

/-- What one pass through the body of the loop of `page_table_walk` decides. -/
inductive WalkStep where
  /-- The loop is left: by `break` with the translated address, by a throw or by the
  failed assertion. -/
  | finish (result : WalkResult)
  /-- The entry is "not a leaf node as rwx == 000": `i--` follows, then the throw of
  "No leaf node found" if `i < 0`, else `cur_base_ppn = pte.ppn; continue`. -/
  | forward (ppn : Nat)
deriving DecidableEq

/-- The checks the loop body of `page_table_walk` makes on the word `pte_bytes` it has
read, in the order of the source. -/
def walk_body (cfg : Config) (vAddr_bits pte_bytes : Nat) : WalkStep :=
  let pte := PTE_t.decode cfg pte_bytes
  if pte.pte_bytes &&& 0xFFFFFFFF = 0xbaadf00d then WalkStep.finish WalkResult.assert_fail
  else if pte.v = false ∨ (pte.r = false ∧ pte.w = true) then
    WalkStep.finish (WalkResult.page_fault PageFault.invalid_entry)
  else if pte.r = false ∧ pte.w = false ∧ pte.x = false then WalkStep.forward pte.ppn
  else if pte.r = false then WalkStep.finish (WalkResult.page_fault PageFault.load_permission)
  else
    WalkStep.finish
      (WalkResult.ret
        (((pte.ppn <<< cfg.MEM_PAGE_LOG2_SIZE) % U64 + vAddr_pgoff cfg vAddr_bits) % U64))

/-- The `while (true)` loop of `page_table_walk`, entered at level `i` with
`cur_base_ppn`. The first component lists the addresses passed to `read_pte`, in
order. -/
def walk_loop (cfg : Config) (m : VMManager) (vAddr_bits : Nat) : Nat → Nat → List Nat × WalkResult
  | 0, cur_base_ppn =>
    let pte_addr := get_pte_address cfg cur_base_ppn (vAddr_vpn cfg vAddr_bits 0)
    match walk_body cfg vAddr_bits (read_pte m pte_addr) with
    | WalkStep.finish result => ([pte_addr], result)
    | WalkStep.forward _ => ([pte_addr], WalkResult.page_fault PageFault.no_leaf)
  | i + 1, cur_base_ppn =>
    let pte_addr := get_pte_address cfg cur_base_ppn (vAddr_vpn cfg vAddr_bits (i + 1))
    match walk_body cfg vAddr_bits (read_pte m pte_addr) with
    | WalkStep.finish result => ([pte_addr], result)
    | WalkStep.forward ppn =>
      let rest := walk_loop cfg m vAddr_bits i ppn
      (pte_addr :: rest.1, rest.2)

/-- The method `page_table_walk` with the list of entry addresses it read. -/
def page_table_walk_log (cfg : Config) (m : VMManager) (vAddr_bits : Nat) : List Nat × WalkResult :=
  if need_trans cfg m vAddr_bits = false then ([], WalkResult.ret vAddr_bits)
  else walk_loop cfg m vAddr_bits (cfg.PT_LEVEL - 1) (get_base_ppn m)

/-- The method `page_table_walk`. -/
def page_table_walk (cfg : Config) (m : VMManager) (vAddr_bits : Nat) : WalkResult :=
  (page_table_walk_log cfg m vAddr_bits).2

/-- Modelled from the spec: `aligned_size` (`util.h`) rounds a size up to a multiple of
the alignment block size. -/
def aligned_size (size alignment : Nat) : Nat :=
  (size + alignment - 1) / alignment * alignment

/-- The method `init_page_table`: `asize` zero bytes are written at `addr` with access
control switched off, and 0 is returned (`new` does not return a null pointer). -/
def init_page_table (cfg : Config) (m : VMManager) (addr size : Nat) : Nat × VMManager :=
  let asize := aligned_size size cfg.CACHE_BLOCK_SIZE
  (0, { m with ram_ := ((m.ram_.enable_acl false).write (fun _ => 0) addr asize).enable_acl true })

/-- The method `alloc_page_table`: the status, the content of `*pt_addr` afterwards, and
the manager afterwards. -/
def alloc_page_table (cfg : Config) (m : VMManager) : Nat × Nat × VMManager :=
  let res := m.page_table_mem_.allocate cfg.PT_SIZE
  let pt_addr := res.1.addr % U64
  let m1 := { m with page_table_mem_ := res.2 }
  if res.1.status ≠ 0 then (1, pt_addr, m1)
  else
    let r := init_page_table cfg m1 pt_addr cfg.PT_SIZE
    if r.1 ≠ 0 then (1, pt_addr, r.2) else (0, pt_addr, r.2)

/-- The `while (i >= 0)` loop of `update_page_table`; the first argument is `i + 1`, the
number of levels still to visit, so `0` is the loop exit followed by `return 0`. The
shift `vpn >> (i * MEM_PAGE_LOG2_SIZE)` is the one of the naturals, which agrees with
the one of `uint64_t` for every shift count below 64. -/
def update_loop (cfg : Config) (ppn vpn flags : Nat) : Nat → Nat → VMManager → Nat × VMManager
  | 0, _, m => (0, m)
  | i + 1, cur_base_ppn, m =>
    let pte_addr := get_pte_address cfg cur_base_ppn (vpn >>> (i * cfg.MEM_PAGE_LOG2_SIZE))
    let pte := read_pte m pte_addr
    if pte &&& 1 ≠ 0 then
      update_loop cfg ppn vpn flags i (pte >>> cfg.MEM_PAGE_LOG2_SIZE) m
    else if i = 0 then
      update_loop cfg ppn vpn flags i cur_base_ppn
        (write_pte m pte_addr (((ppn <<< cfg.MEM_PAGE_LOG2_SIZE) % U64) ||| (flags % 2 ^ 32)))
    else
      let a := alloc_page_table cfg m
      if a.1 ≠ 0 then (1, a.2.2)
      else
        let next_pt := a.2.1
        update_loop cfg ppn vpn flags i (next_pt >>> cfg.MEM_PAGE_LOG2_SIZE)
          (write_pte a.2.2 pte_addr (((next_pt <<< cfg.MEM_PAGE_LOG2_SIZE) % U64) ||| 1))

/-- The method `update_page_table`: the status and the manager afterwards. -/
def update_page_table (cfg : Config) (m : VMManager) (ppn vpn flags : Nat) : Nat × VMManager :=
  update_loop cfg ppn vpn flags cfg.PT_LEVEL (get_base_ppn m) m

/-- How a call of a method that may throw `std::runtime_error` ends. -/
inductive Outcome (α : Type) where
  /-- The call returns a value. -/
  | ret (value : α)
  /-- The call throws `std::runtime_error("Failed to update page table")`. -/
  | runtime_error
deriving DecidableEq

/-- The method `map_p2v`: how the call ends and the manager afterwards. The status of
`virtual_mem_->allocate` is not looked at; `vpn` is whatever the out-parameter holds. -/
def map_p2v (cfg : Config) (m : VMManager) (ppn flags : Nat) : Outcome Nat × VMManager :=
  match m.addr_mapping.lookup ppn with
  | some v => (Outcome.ret v, m)
  | none =>
    let res := m.virtual_mem_.allocate cfg.MEM_PAGE_SIZE
    let vpn := (res.1.addr % U64) >>> cfg.MEM_PAGE_LOG2_SIZE
    let u := update_page_table cfg { m with virtual_mem_ := res.2 } ppn vpn flags
    if u.1 ≠ 0 then (Outcome.runtime_error, u.2)
    else (Outcome.ret vpn, { u.2 with addr_mapping := map_assign u.2.addr_mapping ppn vpn })

/-- The `for` loop of `phy_to_virt_map`: `n` further iterations starting at `ppn`. -/
def map_pages (cfg : Config) (flags : Nat) : Nat → Nat → VMManager → Outcome Unit × VMManager
  | 0, _, m => (Outcome.ret (), m)
  | n + 1, ppn, m =>
    match map_p2v cfg m ppn flags with
    | (Outcome.ret _, m1) => map_pages cfg flags n (ppn + 1) m1
    | (Outcome.runtime_error, m1) => (Outcome.runtime_error, m1)

/-- The method `phy_to_virt_map`: how the call ends, the content of `*dev_vAddr`
afterwards (`dev_vAddr` is its content before the call), and the manager afterwards.
The loop runs while `ppn` is below `(p >> L) + (size >> L)`, a `uint64_t` sum. -/
def phy_to_virt_map (cfg : Config) (m : VMManager) (dev_vAddr size dev_pAddr flags : Nat) :
    Outcome Nat × Nat × VMManager :=
  if need_trans cfg m dev_pAddr = false then (Outcome.ret 0, dev_vAddr, m)
  else
    let init_pAddr := dev_pAddr
    match map_p2v cfg m (init_pAddr >>> cfg.MEM_PAGE_LOG2_SIZE) flags with
    | (Outcome.runtime_error, m1) => (Outcome.runtime_error, dev_vAddr, m1)
    | (Outcome.ret v, m1) =>
      let init_vAddr := ((v <<< cfg.MEM_PAGE_LOG2_SIZE) % U64) |||
        (init_pAddr &&& ((1 <<< cfg.MEM_PAGE_LOG2_SIZE) - 1))
      let first := dev_pAddr >>> cfg.MEM_PAGE_LOG2_SIZE
      let bound := (first + (size >>> cfg.MEM_PAGE_LOG2_SIZE)) % U64
      match map_pages cfg flags (bound - first) first m1 with
      | (Outcome.runtime_error, m2) => (Outcome.runtime_error, dev_vAddr, m2)
      | (Outcome.ret _, m2) => (Outcome.ret 0, init_vAddr, m2)

/-- The method `virtual_mem_reserve`. -/
def virtual_mem_reserve (m : VMManager) (dev_addr size : Nat) : Nat × VMManager :=
  let res := m.virtual_mem_.reserve dev_addr size
  (if res.1 ≠ 0 then 1 else 0, { m with virtual_mem_ := res.2 })

/-- Modelled from the spec: `Processor::set_satp_by_addr` is not part of the translated
sources; it "accepts the computed translation root" and answers success or failure.
`status` is its answer; on success the root page number is the page number of the
address and the mode is `VM_ADDR_MODE`. -/
def set_satp_by_addr (cfg : Config) (p : Processor) (status : Int) (base_addr : Nat) :
    Int × Processor :=
  if status ≠ 0 then (status, p)
  else (0, { satp_unset := false
             satp_mode := cfg.VM_ADDR_MODE
             base_ppn := base_addr >>> cfg.MEM_PAGE_LOG2_SIZE })

/-- The method `init_VM`. `pt_new` and `vm_new` are the two allocators created by
`new MemoryAllocator(...)` (which does not return a null pointer), `satp_status` is the
answer of `set_satp_by_addr`. The status and the manager afterwards. -/
def init_VM (cfg : Config) (m : VMManager) (mem_reserve : Nat → Nat → Int → Int)
    (_mem_free : Nat → Int) (pt_new vm_new : MemoryAllocator) (satp_status : Int) :
    Nat × VMManager :=
  if mem_reserve cfg.PAGE_TABLE_BASE_ADDR cfg.PT_SIZE_LIMIT cfg.VX_MEM_READ_WRITE ≠ 0 then (1, m)
  else
    let m1 := { m with page_table_mem_ := pt_new }
    let m2 := { m1 with virtual_mem_ := vm_new }
    let r1 := virtual_mem_reserve m2 cfg.PAGE_TABLE_BASE_ADDR
      ((cfg.GLOBAL_MEM_SIZE + U64 - cfg.PAGE_TABLE_BASE_ADDR % U64) % U64)
    let r2 := virtual_mem_reserve r1.2 cfg.STARTUP_ADDR 0x40000
    let m3 := r2.2
    let a : Nat × Nat × VMManager :=
      if cfg.VM_ADDR_MODE ≠ cfg.BARE then alloc_page_table cfg m3 else (0, 0, m3)
    if a.1 ≠ 0 then (1, a.2.2)
    else
      let s := set_satp_by_addr cfg a.2.2.processor_ satp_status a.2.1
      if s.1 ≠ 0 then (1, a.2.2) else (0, { a.2.2 with processor_ := s.2 })

/-! ## Derived notions used to state the properties -/

/-- The top-level entry selected by a virtual address: the entry of the root table at
the most significant index field. -/
def top_level_pte (cfg : Config) (m : VMManager) (va : Nat) : PTE_t :=
  PTE_t.decode cfg
    (read_pte m (get_pte_address cfg (get_base_ppn m) (vAddr_vpn cfg va (cfg.PT_LEVEL - 1))))

/-- Whether a word holds the pattern the assertion of `page_table_walk` rejects. -/
def is_uninit (pte_bytes : Nat) : Bool := pte_bytes &&& 0xFFFFFFFF == 0xbaadf00d

/-- Whether `page_table_walk` treats a word as a forwarding entry and goes on: the
assertion passes, the entry is valid and read, write and execute are all clear. -/
def forwards (cfg : Config) (pte_bytes : Nat) : Bool :=
  let pte := PTE_t.decode cfg pte_bytes
  !is_uninit pte_bytes && pte.v && !pte.r && !pte.w && !pte.x

/-- The base page number with which the loop of `page_table_walk` enters the level
reached after `d` descents from the root, if the `d` entries above are all forwarding
entries. -/
def walk_base (cfg : Config) (m : VMManager) (va : Nat) : Nat → Option Nat
  | 0 => some (get_base_ppn m)
  | d + 1 =>
    match walk_base cfg m va d with
    | none => none
    | some b =>
      let pte_bytes := read_pte m (get_pte_address cfg b (vAddr_vpn cfg va (cfg.PT_LEVEL - 1 - d)))
      if forwards cfg pte_bytes then some (PTE_t.decode cfg pte_bytes).ppn else none

/-- Every value of the address-mapping cache is a page number: shifting it left by
`MEM_PAGE_LOG2_SIZE` stays within 64 bits. The empty cache of a new manager satisfies
it and `map_p2v` keeps it. -/
def cache_bounded (cfg : Config) (m : VMManager) : Prop :=
  ∀ e ∈ m.addr_mapping, e.2 < 2 ^ (64 - cfg.MEM_PAGE_LOG2_SIZE)

/-! ## The reference walk of the design (section 4.1) -/

/-- The three kinds of entry the design distinguishes (section 4.1). -/
inductive EntryKind where
  /-- The valid bit is clear, or read is clear while write is set. -/
  | invalid
  /-- Read, write and execute are all clear: the entry points at the next table. -/
  | forwarding
  /-- Any other entry ends the translation. -/
  | leaf
deriving DecidableEq

/-- Reference walk, step 3: the kind of a decoded entry. -/
def spec_kind (pte : PTE_t) : EntryKind :=
  if pte.v = false ∨ (pte.r = false ∧ pte.w = true) then EntryKind.invalid
  else if pte.r = false ∧ pte.w = false ∧ pte.x = false then EntryKind.forwarding
  else EntryKind.leaf

/-- Reference walk, step 3: the address of the entry, `currentBase * tableStride +
indexField * entrySize`, where `tableStride` is the factor the table base is multiplied
by. Addresses are 64-bit words. -/
def spec_pte_address (cfg : Config) (tableStride currentBase indexField : Nat) : Nat :=
  (currentBase * tableStride + indexField * cfg.PTE_SIZE) % U64

/-- Reference walk, steps 3 and 4 at a leaf: the permission check of a load and the
returned address `(leaf.ppn << pageShift) + offset`. -/
def spec_leaf (cfg : Config) (va : Nat) (pte : PTE_t) : WalkResult :=
  if pte.r = false then WalkResult.page_fault PageFault.load_permission
  else WalkResult.ret (((pte.ppn <<< cfg.MEM_PAGE_LOG2_SIZE) % U64 + vAddr_pgoff cfg va) % U64)

/-- Reference walk of section 4.1 from level `i` with `currentBase`. -/
def spec_walk_from (cfg : Config) (tableStride : Nat) (m : VMManager) (va : Nat) :
    Nat → Nat → WalkResult
  | 0, currentBase =>
    let pte := PTE_t.decode cfg
      (read_pte m (spec_pte_address cfg tableStride currentBase (vAddr_vpn cfg va 0)))
    match spec_kind pte with
    | EntryKind.invalid => WalkResult.page_fault PageFault.invalid_entry
    | EntryKind.forwarding => WalkResult.page_fault PageFault.no_leaf
    | EntryKind.leaf => spec_leaf cfg va pte
  | i + 1, currentBase =>
    let pte := PTE_t.decode cfg
      (read_pte m (spec_pte_address cfg tableStride currentBase (vAddr_vpn cfg va (i + 1))))
    match spec_kind pte with
    | EntryKind.invalid => WalkResult.page_fault PageFault.invalid_entry
    | EntryKind.forwarding => spec_walk_from cfg tableStride m va i pte.ppn
    | EntryKind.leaf => spec_leaf cfg va pte

/-- Reference walk of section 4.1 for an address that needs translation: it starts at
level `PT_LEVEL - 1` with the translation root. -/
def spec_walk (cfg : Config) (tableStride : Nat) (m : VMManager) (va : Nat) : WalkResult :=
  spec_walk_from cfg tableStride m va (cfg.PT_LEVEL - 1) (get_base_ppn m)

/-- The words the reference walk reads from level `i` with `currentBase`, in order. -/
def spec_words_from (cfg : Config) (tableStride : Nat) (m : VMManager) (va : Nat) :
    Nat → Nat → List Nat
  | 0, currentBase =>
    [read_pte m (spec_pte_address cfg tableStride currentBase (vAddr_vpn cfg va 0))]
  | i + 1, currentBase =>
    let word := read_pte m (spec_pte_address cfg tableStride currentBase (vAddr_vpn cfg va (i + 1)))
    match spec_kind (PTE_t.decode cfg word) with
    | EntryKind.forwarding =>
      word :: spec_words_from cfg tableStride m va i (PTE_t.decode cfg word).ppn
    | _ => [word]

/-- The words the reference walk reads for an address that needs translation. -/
def spec_words (cfg : Config) (tableStride : Nat) (m : VMManager) (va : Nat) : List Nat :=
  spec_words_from cfg tableStride m va (cfg.PT_LEVEL - 1) (get_base_ppn m)

/-- The number of entries of one table: a table of `PT_SIZE` bytes holds entries of
`PTE_SIZE` bytes. -/
def entries_per_table (cfg : Config) : Nat := cfg.PT_SIZE / cfg.PTE_SIZE

/-! ## A concrete configuration and concrete managers -/

/-- A 64-bit configuration: 4 KiB pages, three levels, eight-byte entries, 512 entries
per table, and the entry layout of RISC-V Sv39 (read, write, execute at bits 1, 2, 3 and
the page number from bit 10). -/
def sv39 : Config where
  MEM_PAGE_SIZE := 4096
  MEM_PAGE_LOG2_SIZE := 12
  CACHE_BLOCK_SIZE := 64
  PT_LEVEL := 3
  PT_SIZE := 4096
  PTE_SIZE := 8
  PT_SIZE_LIMIT := 0x2000000
  GLOBAL_MEM_SIZE := 0x200000000
  PAGE_TABLE_BASE_ADDR := 0x1F0000000
  ALLOC_BASE_ADDR := 0x1000
  USER_BASE_ADDR := 0x1000
  STARTUP_ADDR := 0x180000000
  BARE := 0
  VM_ADDR_MODE := 8
  VX_MEM_READ_WRITE := 3
  VPN_BITS := 9
  PTE_R := 1
  PTE_W := 2
  PTE_X := 3
  PTE_PPN_LO := 10
  PTE_PPN_BITS := 44

/-- The configuration `sv39` with the page number of an entry read from bit 12 on, the
shift `update_page_table` uses. -/
def sv39_shift12 : Config := { sv39 with PTE_PPN_LO := 12, PTE_PPN_BITS := 52 }

/-- An allocator that always succeeds and hands out consecutive blocks of `step` bytes
from `base`; every reservation succeeds. -/
def bump (base step : Nat) : MemoryAllocator where
  allocate_reply := fun n => { status := 0, addr := base + n * step }
  allocated := 0
  reserve_reply := fun _ => 0
  reserved := 0

/-- A manager as its constructor leaves it, on a processor without translation root
and a RAM holding zero bytes. -/
def blank : VMManager where
  processor_ := { satp_unset := true, satp_mode := 0, base_ppn := 0 }
  ram_ := { mem := fun _ => 0, check_acl := true }
  page_table_mem_ := bump 0 0
  virtual_mem_ := bump 0 0
  addr_mapping := []

/-- The call of `init_VM` on `blank` in which every reservation and allocation
succeeds: status and manager. -/
def fresh_init (cfg : Config) : Nat × VMManager :=
  init_VM cfg blank (fun _ _ _ => 0) (fun _ => 0)
    (bump cfg.PAGE_TABLE_BASE_ADDR cfg.PT_SIZE) (bump cfg.ALLOC_BASE_ADDR cfg.MEM_PAGE_SIZE) 0

/-- The initialised manager of `fresh_init`. -/
def fresh (cfg : Config) : VMManager := (fresh_init cfg).2

/-- A three-level table written by hand in the `sv39` layout into the initialised
manager: the root forwards slot 0 to the node at page `0x1F0001`, that node forwards
slot 0 to the node at page `0x1F0002`, whose slot 1 holds `leaf`. It serves the virtual
page 1. -/
def sv39_table (leaf : Nat) : VMManager :=
  write_pte
    (write_pte
      (write_pte (fresh sv39) 0x1F0000000 ((0x1F0001 <<< 10) ||| 1))
      0x1F0001000 ((0x1F0002 <<< 10) ||| 1))
    0x1F0002008 leaf

/-- The initialised manager whose root entry for the virtual page 1 holds the pattern
`0xbaadf00d`. -/
def sv39_uninit : VMManager := write_pte (fresh sv39) 0x1F0000000 0xbaadf00d

/-! ## The builder with its steps recorded -/

/-- What one pass through the body of the loop of `update_page_table` does. -/
inductive BuildStep where
  /-- At level `i` the word `pte` read at `pte_addr` has bit 0 set:
  `cur_base_ppn = pte >> MEM_PAGE_LOG2_SIZE`. -/
  | descend (i pte_addr pte : Nat)
  /-- At level 0 the word read at `pte_addr` has bit 0 clear: `value` is written. -/
  | leaf (pte_addr value : Nat)
  /-- At level `i > 0` the word read at `pte_addr` has bit 0 clear, `alloc_page_table`
  succeeds with `next_pt` and the forwarding entry is written. -/
  | node (i pte_addr next_pt : Nat)
  /-- At level `i > 0` the word `pte` read at `pte_addr` has bit 0 clear and
  `alloc_page_table` fails: `return 1`. -/
  | alloc_failed (i pte_addr pte : Nat)
deriving DecidableEq

/-- Whether a step is a failed node allocation. -/
def BuildStep.is_alloc_failed : BuildStep → Bool
  | BuildStep.alloc_failed _ _ _ => true
  | _ => false

/-- Whether a step is a successful node allocation. -/
def BuildStep.is_node : BuildStep → Bool
  | BuildStep.node _ _ _ => true
  | _ => false

/-- Whether a step is the write of a leaf entry. -/
def BuildStep.is_leaf : BuildStep → Bool
  | BuildStep.leaf _ _ => true
  | _ => false

/-- The loop of `update_page_table` as in `update_loop`, with one `BuildStep` recorded
per loop iteration: the steps, the status and the manager afterwards. -/
def update_loop_traced (cfg : Config) (ppn vpn flags : Nat) :
    Nat → Nat → VMManager → List BuildStep × Nat × VMManager
  | 0, _, m => ([], 0, m)
  | i + 1, cur_base_ppn, m =>
    let pte_addr := get_pte_address cfg cur_base_ppn (vpn >>> (i * cfg.MEM_PAGE_LOG2_SIZE))
    let pte := read_pte m pte_addr
    if pte &&& 1 ≠ 0 then
      let rest := update_loop_traced cfg ppn vpn flags i (pte >>> cfg.MEM_PAGE_LOG2_SIZE) m
      (BuildStep.descend i pte_addr pte :: rest.1, rest.2)
    else if i = 0 then
      let value := ((ppn <<< cfg.MEM_PAGE_LOG2_SIZE) % U64) ||| (flags % 2 ^ 32)
      let rest := update_loop_traced cfg ppn vpn flags i cur_base_ppn (write_pte m pte_addr value)
      (BuildStep.leaf pte_addr value :: rest.1, rest.2)
    else
      let a := alloc_page_table cfg m
      if a.1 ≠ 0 then ([BuildStep.alloc_failed i pte_addr pte], 1, a.2.2)
      else
        let next_pt := a.2.1
        let rest := update_loop_traced cfg ppn vpn flags i (next_pt >>> cfg.MEM_PAGE_LOG2_SIZE)
          (write_pte a.2.2 pte_addr (((next_pt <<< cfg.MEM_PAGE_LOG2_SIZE) % U64) ||| 1))
        (BuildStep.node i pte_addr next_pt :: rest.1, rest.2)

/-- The steps of a call of `update_page_table`. -/
def update_page_table_steps (cfg : Config) (m : VMManager) (ppn vpn flags : Nat) :
    List BuildStep :=
  (update_loop_traced cfg ppn vpn flags cfg.PT_LEVEL (get_base_ppn m) m).1

/-- The loop of `update_page_table` over the non-final levels `k, k - 1, ..., 1`: the
base page number and the manager with which the final level 0 is entered, if no
allocation fails on the way. -/
def update_descend (cfg : Config) (vpn : Nat) : Nat → Nat → VMManager → Option (Nat × VMManager)
  | 0, cur_base_ppn, m => some (cur_base_ppn, m)
  | k + 1, cur_base_ppn, m =>
    let pte_addr := get_pte_address cfg cur_base_ppn (vpn >>> ((k + 1) * cfg.MEM_PAGE_LOG2_SIZE))
    let pte := read_pte m pte_addr
    if pte &&& 1 ≠ 0 then update_descend cfg vpn k (pte >>> cfg.MEM_PAGE_LOG2_SIZE) m
    else
      let a := alloc_page_table cfg m
      if a.1 ≠ 0 then none
      else
        update_descend cfg vpn k (a.2.1 >>> cfg.MEM_PAGE_LOG2_SIZE)
          (write_pte a.2.2 pte_addr (((a.2.1 <<< cfg.MEM_PAGE_LOG2_SIZE) % U64) ||| 1))

/-- The leaf word `update_page_table` writes: `(ppn << MEM_PAGE_LOG2_SIZE) | flags`. -/
def leaf_entry (cfg : Config) (ppn flags : Nat) : Nat :=
  ((ppn <<< cfg.MEM_PAGE_LOG2_SIZE) % U64) ||| (flags % 2 ^ 32)

/-! ## RAM writes that may fail -/

/-- One call on the RAM made by `write_pte` or `init_page_table`. -/
inductive RamOp where
  /-- The call `ram_.enable_acl(enable)`. -/
  | enable_acl (enable : Bool)
  /-- The call `ram_.write(data, addr, size)`. -/
  | write (data : Nat → Nat) (addr size : Nat)

/-- The three statements of `write_pte`, in order. -/
def write_pte_ops (addr value : Nat) : List RamOp :=
  [RamOp.enable_acl false, RamOp.write (u64_byte value) addr 8, RamOp.enable_acl true]

/-- Modelled from the spec: the RAM is not part of the translated sources, and the design
speaks of a write that fails (sections 4.4 and 5). `write_throws addr size` tells whether
the write of `size` bytes at `addr` throws. The statements run in order; neither method
has a handler, so a throw ends the method there. The result is whether the method was
left by the throw, and the RAM afterwards. -/
def run_ram_ops (write_throws : Nat → Nat → Bool) : List RamOp → RAM → Bool × RAM
  | [], ram => (false, ram)
  | RamOp.enable_acl enable :: rest, ram => run_ram_ops write_throws rest (ram.enable_acl enable)
  | RamOp.write data addr size :: rest, ram =>
    if write_throws addr size then (true, ram)
    else run_ram_ops write_throws rest (ram.write data addr size)

/-! ## More concrete managers -/

/-- A three-level table written by hand into the initialised `sv39` manager in the
format `update_page_table` reads (the base of the next table is the word shifted right
by `MEM_PAGE_LOG2_SIZE`): the root forwards slot 0 to the node at page `0x1F0001`, that
node forwards slot 0 to the node at page `0x1F0002`, whose slot 1 holds `leaf`. -/
def sv39_builder_table (leaf : Nat) : VMManager :=
  write_pte
    (write_pte
      (write_pte (fresh sv39) 0x1F0000000 ((0x1F0001 <<< 12) ||| 1))
      0x1F0001000 ((0x1F0002 <<< 12) ||| 1))
    0x1F0002008 leaf

/-- The initialised `sv39` manager whose root entry 1 forwards to the root table
itself: a cycle of forwarding entries, met by the virtual address `0x40201123`, whose
three index fields are 1. -/
def sv39_cycle : VMManager := write_pte (fresh sv39) 0x1F0000008 ((0x1F0000 <<< 10) ||| 1)

/-- An allocator whose allocations succeed like those of `bump` and whose reservations
all fail. -/
def bump_no_reserve (base step : Nat) : MemoryAllocator :=
  { bump base step with reserve_reply := fun _ => 1 }

/-- An allocator whose first `n` allocations succeed like those of `bump` and whose
later allocations fail, leaving 0 in the out-parameter. -/
def bump_limited (base step n : Nat) : MemoryAllocator :=
  { bump base step with
    allocate_reply := fun k =>
      if k < n then { status := 0, addr := base + k * step } else { status := 1, addr := 0 } }

/-- The initialised `sv39` manager whose page-table allocator serves only the root
table and one more node. -/
def sv39_short : VMManager :=
  (init_VM sv39 blank (fun _ _ _ => 0) (fun _ => 0)
    (bump_limited sv39.PAGE_TABLE_BASE_ADDR sv39.PT_SIZE 2)
    (bump sv39.ALLOC_BASE_ADDR sv39.MEM_PAGE_SIZE) 0).2

/-- The virtual page number `map_p2v` derives on a cache miss from what
`virtual_mem_->allocate` leaves in `vpn`. -/
def map_p2v_vpn (cfg : Config) (m : VMManager) : Nat :=
  ((m.virtual_mem_.allocate cfg.MEM_PAGE_SIZE).1.addr % U64) >>> cfg.MEM_PAGE_LOG2_SIZE

/-- The manager with which `map_p2v` calls `update_page_table` on a cache miss: the
virtual-window allocator has served one more call. -/
def map_p2v_entry (cfg : Config) (m : VMManager) : VMManager :=
  { m with virtual_mem_ := (m.virtual_mem_.allocate cfg.MEM_PAGE_SIZE).2 }

/-! ## The steps of `map_p2v` -/

/-- The steps of the builder in a call of `map_p2v`: none on a cache hit, which returns
before `update_page_table` is called, and those of `update_page_table` on a miss. -/
def map_p2v_steps (cfg : Config) (m : VMManager) (ppn flags : Nat) : List BuildStep :=
  match m.addr_mapping.lookup ppn with
  | some _ => []
  | none => update_page_table_steps cfg (map_p2v_entry cfg m) ppn (map_p2v_vpn cfg m) flags

/-! ## The builder when a RAM write may throw -/

/-- A 32-bit configuration: 4 KiB pages, two levels, four-byte entries, 1024 entries per
table, and the entry layout of RISC-V Sv32. -/
def sv32 : Config where
  MEM_PAGE_SIZE := 4096
  MEM_PAGE_LOG2_SIZE := 12
  CACHE_BLOCK_SIZE := 64
  PT_LEVEL := 2
  PT_SIZE := 4096
  PTE_SIZE := 4
  PT_SIZE_LIMIT := 0x800000
  GLOBAL_MEM_SIZE := 0x100000000
  PAGE_TABLE_BASE_ADDR := 0xF0000000
  ALLOC_BASE_ADDR := 0x1000
  USER_BASE_ADDR := 0x1000
  STARTUP_ADDR := 0x80000000
  BARE := 0
  VM_ADDR_MODE := 1
  VX_MEM_READ_WRITE := 3
  VPN_BITS := 10
  PTE_R := 1
  PTE_W := 2
  PTE_X := 3
  PTE_PPN_LO := 10
  PTE_PPN_BITS := 22

/-- A manager as its constructor leaves it, on a RAM every byte of which is `0xAB`. -/
def blank_dirty : VMManager :=
  { blank with ram_ := { mem := fun _ => 0xAB, check_acl := true } }

/-- The manager initialised with every reservation and allocation succeeding, on the
RAM of `blank_dirty`. -/
def fresh_dirty (cfg : Config) : VMManager :=
  (init_VM cfg blank_dirty (fun _ _ _ => 0) (fun _ => 0)
    (bump cfg.PAGE_TABLE_BASE_ADDR cfg.PT_SIZE) (bump cfg.ALLOC_BASE_ADDR cfg.MEM_PAGE_SIZE) 0).2

theorem ram_read_bytes (ram : RAM) (w : Nat) :
    ∀ (n a j : Nat), (∀ k, k < n → ram.mem (a + k) % 256 = w / 256 ^ (j + k) % 256) →
      ram.read a n = w / 256 ^ j % 256 ^ n := by
  intro n
  induction n with
  | zero => intro a j _; simp [RAM.read, Nat.mod_one]
  | succ n ih =>
    intro a j h
    rw [RAM.read, ih (a + 1) (j + 1) (fun k hk => by
      have := h (k + 1) (by omega)
      rw [show a + 1 + k = a + (k + 1) by omega, show j + 1 + k = j + (k + 1) by omega]
      exact this)]
    have h0 := h 0 (by omega)
    rw [Nat.add_zero, Nat.add_zero] at h0
    have h1 : w / 256 ^ (j + 1) = w / 256 ^ j / 256 := by
      rw [Nat.pow_succ, Nat.div_div_eq_div_mul]
    have h2 : w / 256 ^ j % 256 ^ (n + 1) =
        w / 256 ^ j % 256 + 256 * (w / 256 ^ j / 256 % 256 ^ n) := by
      rw [Nat.pow_succ', Nat.mod_mul]
    rw [h0, h1, h2]

/-- Reading back the entry just written gives the written word, as a `uint64_t`. -/
theorem read_pte_write_pte_same (m : VMManager) (addr value : Nat) :
    read_pte (write_pte m addr value) addr = value % U64 := by
  unfold read_pte write_pte
  have h := ram_read_bytes
    (((m.ram_.enable_acl false).write (u64_byte value) addr 8).enable_acl true) value 8 addr 0
    (fun k hk => by
      simp only [RAM.enable_acl, RAM.write, u64_byte]
      rw [if_pos ⟨by omega, by omega⟩]
      simp)
  rw [h]
  simp [U64]

theorem ram_read_congr (r1 r2 : RAM) :
    ∀ (n a : Nat), (∀ k, k < n → r1.mem (a + k) = r2.mem (a + k)) → r1.read a n = r2.read a n := by
  intro n
  induction n with
  | zero => intro a _; rfl
  | succ n ih =>
    intro a h
    rw [RAM.read, RAM.read, ih (a + 1) (fun k hk => by
      have := h (k + 1) (by omega)
      rw [show a + 1 + k = a + (k + 1) by omega]
      exact this)]
    have h0 := h 0 (by omega)
    rw [Nat.add_zero] at h0
    rw [h0]

/-- Writing an entry does not change what is read at an address eight or more bytes
away. -/
theorem read_pte_write_pte_other (m : VMManager) (addr value other : Nat)
    (h : other + 8 ≤ addr ∨ addr + 8 ≤ other) :
    read_pte (write_pte m addr value) other = read_pte m other := by
  unfold read_pte write_pte
  apply ram_read_congr
  intro k hk
  simp only [RAM.enable_acl, RAM.write]
  rw [if_neg (by omega)]

/-! ## Lemmas on the address-mapping cache -/

theorem lookup_map_assign (l : List (Nat × Nat)) (k v : Nat) :
    (map_assign l k v).lookup k = some v := by
  simp [map_assign, List.lookup]

theorem lookup_mem (l : List (Nat × Nat)) (k v : Nat) (h : l.lookup k = some v) :
    (k, v) ∈ l := by
  induction l with
  | nil => simp at h
  | cons e t ih =>
    obtain ⟨a, b⟩ := e
    rw [List.lookup_cons] at h
    split at h
    · next heq =>
      simp only [beq_iff_eq] at heq
      simp only [Option.some.injEq] at h
      subst heq; subst h
      exact List.mem_cons_self _ _
    · exact List.mem_cons_of_mem _ (ih h)

theorem lookup_filter_ne (l : List (Nat × Nat)) (k p : Nat) (h : k ≠ p) :
    (l.filter (fun e => e.1 != p)).lookup k = l.lookup k := by
  induction l with
  | nil => rfl
  | cons e t ih =>
    obtain ⟨a, b⟩ := e
    by_cases hap : a = p
    · subst hap
      have hk : (k == a) = false := by simpa using h
      simp [List.filter_cons, List.lookup_cons, hk, ih]
    · have : ((a, b).1 != p) = true := by simpa using hap
      rw [List.filter_cons, if_pos this, List.lookup_cons, List.lookup_cons, ih]

theorem lookup_map_assign_ne (l : List (Nat × Nat)) (k p v : Nat) (h : k ≠ p) :
    (map_assign l p v).lookup k = l.lookup k := by
  have hk : (k == p) = false := by simpa using h
  unfold map_assign
  rw [List.lookup_cons, hk]
  exact lookup_filter_ne l k p h

theorem write_pte_addr_mapping (m : VMManager) (a w : Nat) :
    (write_pte m a w).addr_mapping = m.addr_mapping := rfl

theorem alloc_page_table_addr_mapping (cfg : Config) (m : VMManager) :
    (alloc_page_table cfg m).2.2.addr_mapping = m.addr_mapping := by
  unfold alloc_page_table init_page_table
  dsimp only
  split_ifs <;> rfl

theorem update_loop_addr_mapping (cfg : Config) (ppn vpn flags : Nat) :
    ∀ (n cur : Nat) (m : VMManager),
      (update_loop cfg ppn vpn flags n cur m).2.addr_mapping = m.addr_mapping := by
  intro n
  induction n with
  | zero => intro cur m; rfl
  | succ i ih =>
    intro cur m
    rw [update_loop]
    dsimp only
    split_ifs
    · exact ih _ _
    · rw [ih, write_pte_addr_mapping]
    · exact alloc_page_table_addr_mapping cfg m
    · rw [ih, write_pte_addr_mapping, alloc_page_table_addr_mapping]

theorem update_page_table_addr_mapping (cfg : Config) (m : VMManager) (ppn vpn flags : Nat) :
    (update_page_table cfg m ppn vpn flags).2.addr_mapping = m.addr_mapping :=
  update_loop_addr_mapping cfg ppn vpn flags _ _ _

/-- A call of `map_p2v` that returns leaves the returned page in the cache. -/
theorem map_p2v_lookup_result (cfg : Config) (m m1 : VMManager) (p flags v : Nat)
    (h : map_p2v cfg m p flags = (Outcome.ret v, m1)) :
    m1.addr_mapping.lookup p = some v := by
  unfold map_p2v at h
  split at h
  · next v0 hv0 =>
    simp only [Prod.mk.injEq, Outcome.ret.injEq] at h
    obtain ⟨rfl, rfl⟩ := h
    exact hv0
  · dsimp only at h
    split at h
    · simp at h
    · simp only [Prod.mk.injEq, Outcome.ret.injEq] at h
      obtain ⟨rfl, rfl⟩ := h
      exact lookup_map_assign _ _ _

/-- A call of `map_p2v` on a page that is in the cache returns the cached page and
leaves the manager as it is. -/
theorem map_p2v_hit (cfg : Config) (m : VMManager) (p flags v : Nat)
    (h : m.addr_mapping.lookup p = some v) :
    map_p2v cfg m p flags = (Outcome.ret v, m) := by
  simp [map_p2v, h]

/-- No call of `map_p2v` changes an entry the cache already has. -/
theorem map_p2v_lookup_stable (cfg : Config) (m : VMManager) (p flags k v : Nat)
    (h : m.addr_mapping.lookup k = some v) :
    (map_p2v cfg m p flags).2.addr_mapping.lookup k = some v := by
  unfold map_p2v
  split
  · exact h
  · next hnone =>
    have hkp : k ≠ p := by
      intro hkp
      rw [hkp, hnone] at h
      exact absurd h (by simp)
    dsimp only
    split_ifs
    · rw [update_page_table_addr_mapping]; exact h
    · dsimp only
      rw [lookup_map_assign_ne _ _ _ _ hkp, update_page_table_addr_mapping]
      exact h

theorem map_pages_lookup_stable (cfg : Config) (flags k v : Nat) :
    ∀ (n ppn : Nat) (m : VMManager), m.addr_mapping.lookup k = some v →
      (map_pages cfg flags n ppn m).2.addr_mapping.lookup k = some v := by
  intro n
  induction n with
  | zero => intro ppn m h; exact h
  | succ n ih =>
    intro ppn m h
    have hs := map_p2v_lookup_stable cfg m ppn flags k v h
    rw [map_pages]
    split
    · next v1 m1 heq =>
      rw [heq] at hs
      exact ih _ _ hs
    · next m1 heq =>
      rw [heq] at hs
      exact hs

theorem cache_bounded_of_empty (cfg : Config) (m : VMManager) (h : m.addr_mapping = []) :
    cache_bounded cfg m := by
  intro e he
  rw [h] at he
  exact absurd he (List.not_mem_nil e)

theorem shiftRight_u64_lt (x L : Nat) : (x % U64) >>> L < 2 ^ (64 - L) := by
  rw [Nat.shiftRight_eq_div_pow]
  have hx : x % U64 < 2 ^ 64 := Nat.mod_lt _ (by unfold U64; positivity)
  by_cases hL : L ≤ 64
  · rw [Nat.div_lt_iff_lt_mul (by positivity), ← Nat.pow_add]
    have : 64 - L + L = 64 := by omega
    rw [this]; exact hx
  · have h1 : (2:Nat) ^ 64 ≤ 2 ^ L := Nat.pow_le_pow_right (by norm_num) (by omega)
    rw [Nat.div_eq_of_lt (by omega)]
    positivity

/-- The page a returning `map_p2v` answers is a page number, when the cache holds page
numbers. -/
theorem map_p2v_bounded (cfg : Config) (m m1 : VMManager) (p flags v : Nat)
    (hc : cache_bounded cfg m) (h : map_p2v cfg m p flags = (Outcome.ret v, m1)) :
    v < 2 ^ (64 - cfg.MEM_PAGE_LOG2_SIZE) := by
  unfold map_p2v at h
  split at h
  · next v0 hv0 =>
    simp only [Prod.mk.injEq, Outcome.ret.injEq] at h
    rw [← h.1]
    exact hc _ (lookup_mem _ _ _ hv0)
  · dsimp only at h
    split at h
    · simp at h
    · simp only [Prod.mk.injEq, Outcome.ret.injEq] at h
      rw [← h.1]
      exact shiftRight_u64_lt _ _

/-- The property `cache_bounded` is an invariant of `map_p2v`. -/
theorem map_p2v_cache_bounded (cfg : Config) (m : VMManager) (p flags : Nat)
    (hc : cache_bounded cfg m) : cache_bounded cfg (map_p2v cfg m p flags).2 := by
  unfold map_p2v
  split
  · exact hc
  · dsimp only
    split_ifs
    · intro e he
      rw [update_page_table_addr_mapping] at he
      exact hc e he
    · intro e he
      dsimp only [map_assign] at he
      rw [List.mem_cons] at he
      rcases he with rfl | he
      · exact shiftRight_u64_lt _ _
      · have he2 := (List.mem_filter.mp he).1
        rw [update_page_table_addr_mapping] at he2
        exact hc e he2

theorem compose_page_offset (v p L : Nat) (hv : v < 2 ^ (64 - L)) :
    ((v <<< L) % U64 ||| (p &&& ((1 <<< L) - 1))) = (v <<< L) % U64 ||| p % 2 ^ L ∧
    ((v <<< L) % U64 ||| (p &&& ((1 <<< L) - 1))) >>> L = v ∧
    ((v <<< L) % U64 ||| (p &&& ((1 <<< L) - 1))) % 2 ^ L = p % 2 ^ L := by
  have hmask : p &&& ((1 <<< L) - 1) = p % 2 ^ L := by
    rw [Nat.one_shiftLeft, Nat.and_pow_two_sub_one_eq_mod]
  have hlt : v <<< L < U64 := by
    rw [Nat.shiftLeft_eq]
    unfold U64
    by_cases hL : L ≤ 64
    · have : (2:Nat) ^ 64 = 2 ^ (64 - L) * 2 ^ L := by
        rw [← Nat.pow_add]; congr 1; omega
      rw [this]
      exact Nat.mul_lt_mul_of_pos_right hv (by positivity)
    · have h0 : 64 - L = 0 := by omega
      rw [h0] at hv
      have : v = 0 := by omega
      subst this
      simp
  have hr : p % 2 ^ L < 2 ^ L := Nat.mod_lt _ (by positivity)
  rw [hmask, Nat.mod_eq_of_lt hlt, Nat.shiftLeft_eq, Nat.mul_comm v,
    ← Nat.mul_add_lt_is_or hr v]
  refine ⟨rfl, ?_, ?_⟩
  · rw [Nat.shiftRight_eq_div_pow, Nat.mul_add_div (by positivity), Nat.div_eq_of_lt hr]
    rfl
  · rw [Nat.mul_add_mod, Nat.mod_mod]

theorem map_pages_cache_bounded (cfg : Config) (flags : Nat) :
    ∀ (n ppn : Nat) (m : VMManager), cache_bounded cfg m →
      cache_bounded cfg (map_pages cfg flags n ppn m).2 := by
  intro n
  induction n with
  | zero => intro ppn m h; exact h
  | succ n ih =>
    intro ppn m h
    have hs := map_p2v_cache_bounded cfg m ppn flags h
    rw [map_pages]
    split
    · next v1 m1 heq =>
      rw [heq] at hs
      exact ih _ _ hs
    · next m1 heq =>
      rw [heq] at hs
      exact hs

theorem phy_to_virt_map_cache_bounded (cfg : Config) (m : VMManager)
    (dev_vAddr size p flags : Nat) (hc : cache_bounded cfg m) :
    cache_bounded cfg (phy_to_virt_map cfg m dev_vAddr size p flags).2.2 := by
  unfold phy_to_virt_map
  split_ifs
  · exact hc
  · have h1 := map_p2v_cache_bounded cfg m (p >>> cfg.MEM_PAGE_LOG2_SIZE) flags hc
    dsimp only
    split
    · next m1 heq => rw [heq] at h1; exact h1
    · next v m1 heq =>
      rw [heq] at h1
      have h2 := map_pages_cache_bounded cfg flags
        ((p >>> cfg.MEM_PAGE_LOG2_SIZE + size >>> cfg.MEM_PAGE_LOG2_SIZE) % U64 -
          p >>> cfg.MEM_PAGE_LOG2_SIZE) (p >>> cfg.MEM_PAGE_LOG2_SIZE) m1 h1
      split
      · next m2 heq2 => rw [heq2] at h2; exact h2
      · next u m2 heq2 => rw [heq2] at h2; exact h2

/-- A call of `phy_to_virt_map` on an address that needs translation returns only if its
first call of `map_p2v`, for the page of the address, returns. -/
theorem phy_to_virt_map_first_page (cfg : Config) (m m2 : VMManager)
    (dev_vAddr size p flags vout : Nat) (hnt : need_trans cfg m p = true)
    (h : phy_to_virt_map cfg m dev_vAddr size p flags = (Outcome.ret 0, vout, m2)) :
    ∃ v m1, map_p2v cfg m (p >>> cfg.MEM_PAGE_LOG2_SIZE) flags = (Outcome.ret v, m1) := by
  unfold phy_to_virt_map at h
  rw [if_neg (by simp [hnt])] at h
  dsimp only at h
  split at h
  · simp at h
  · next v m1 hmap => exact ⟨v, m1, hmap⟩

/-! ## Lemmas on the walk -/

theorem uninit_testBit_zero (w : Nat) (h : w &&& 0xFFFFFFFF = 0xbaadf00d) :
    w.testBit 0 = true := by
  have h1 := congrArg (fun z => z.testBit 0) h
  simp only [Nat.testBit_and] at h1
  have h2 : (0xbaadf00d : Nat).testBit 0 = true := by decide
  rw [h2] at h1
  simp only [Bool.and_eq_true] at h1
  exact h1.1

theorem walk_loop_finish (cfg : Config) (m : VMManager) (va i cur : Nat) (r : WalkResult)
    (h : walk_body cfg va (read_pte m (get_pte_address cfg cur (vAddr_vpn cfg va i))) =
      WalkStep.finish r) :
    walk_loop cfg m va i cur = ([get_pte_address cfg cur (vAddr_vpn cfg va i)], r) := by
  cases i with
  | zero => rw [walk_loop]; simp only [h]
  | succ j => rw [walk_loop]; simp only [h]

theorem walk_loop_forward_succ (cfg : Config) (m : VMManager) (va j cur ppn : Nat)
    (h : walk_body cfg va (read_pte m (get_pte_address cfg cur (vAddr_vpn cfg va (j + 1)))) =
      WalkStep.forward ppn) :
    walk_loop cfg m va (j + 1) cur =
      (get_pte_address cfg cur (vAddr_vpn cfg va (j + 1)) :: (walk_loop cfg m va j ppn).1,
        (walk_loop cfg m va j ppn).2) := by
  rw [walk_loop]; simp only [h]

theorem walk_body_invalid (cfg : Config) (va w : Nat) (hv : (PTE_t.decode cfg w).v = false) :
    walk_body cfg va w = WalkStep.finish (WalkResult.page_fault PageFault.invalid_entry) := by
  have hb : w.testBit 0 = false := hv
  have hp : ¬ ((PTE_t.decode cfg w).pte_bytes &&& 0xFFFFFFFF = 0xbaadf00d) := by
    intro h
    rw [uninit_testBit_zero w h] at hb
    exact absurd hb (by simp)
  unfold walk_body
  simp only []
  rw [if_neg hp, if_pos (Or.inl hv)]

theorem page_table_walk_of_need_trans (cfg : Config) (m : VMManager) (va : Nat)
    (hnt : need_trans cfg m va = true) :
    page_table_walk cfg m va = (walk_loop cfg m va (cfg.PT_LEVEL - 1) (get_base_ppn m)).2 := by
  unfold page_table_walk page_table_walk_log
  rw [if_neg (by simp [hnt])]

theorem walk_body_forwards (cfg : Config) (va w : Nat) (h : forwards cfg w = true) :
    walk_body cfg va w = WalkStep.forward (PTE_t.decode cfg w).ppn := by
  unfold forwards is_uninit at h
  simp only [Bool.and_eq_true, Bool.not_eq_eq_eq_not, Bool.not_true, beq_eq_false_iff_ne,
    ne_eq] at h
  obtain ⟨⟨⟨⟨hu, hv⟩, hr⟩, hw⟩, hx⟩ := h
  have hu2 : ¬ ((PTE_t.decode cfg w).pte_bytes &&& 0xFFFFFFFF = 0xbaadf00d) := hu
  unfold walk_body
  simp only []
  rw [if_neg hu2, if_neg (by simp [hv, hw]), if_pos ⟨hr, hw, hx⟩]

/-- The walk of an address whose first `d` entries are forwarding entries continues at
the level `d` below the top with the base `walk_base` gives. -/
theorem walk_loop_of_walk_base (cfg : Config) (m : VMManager) (va : Nat) :
    ∀ (d b : Nat), d ≤ cfg.PT_LEVEL - 1 → walk_base cfg m va d = some b →
      (walk_loop cfg m va (cfg.PT_LEVEL - 1) (get_base_ppn m)).2 =
        (walk_loop cfg m va (cfg.PT_LEVEL - 1 - d) b).2 := by
  intro d
  induction d with
  | zero =>
    intro b _ hb
    simp only [walk_base, Option.some.injEq] at hb
    subst hb
    rfl
  | succ d ih =>
    intro b hd hb
    simp only [walk_base] at hb
    split at hb
    · exact absurd hb (by simp)
    · next b0 hb0 =>
      split at hb
      · next hf =>
        simp only [Option.some.injEq] at hb
        rw [ih b0 (by omega) hb0]
        have hlev : cfg.PT_LEVEL - 1 - d = (cfg.PT_LEVEL - 1 - (d + 1)) + 1 := by omega
        have hf2 := walk_body_forwards cfg va _ hf
        rw [hlev] at hf2 ⊢
        rw [walk_loop_forward_succ cfg m va _ b0 _ hf2, ← hb, hlev]
      · exact absurd hb (by simp)

theorem spec_pte_address_stride (cfg : Config) (b idx : Nat) :
    spec_pte_address cfg cfg.PT_SIZE b idx = get_pte_address cfg b idx := rfl

theorem walk_body_eq_spec (cfg : Config) (va w : Nat) (hu : is_uninit w = false) :
    walk_body cfg va w =
      match spec_kind (PTE_t.decode cfg w) with
      | EntryKind.invalid => WalkStep.finish (WalkResult.page_fault PageFault.invalid_entry)
      | EntryKind.forwarding => WalkStep.forward (PTE_t.decode cfg w).ppn
      | EntryKind.leaf => WalkStep.finish (spec_leaf cfg va (PTE_t.decode cfg w)) := by
  unfold is_uninit at hu
  simp only [beq_eq_false_iff_ne, ne_eq] at hu
  have hu2 : ¬ ((PTE_t.decode cfg w).pte_bytes &&& 0xFFFFFFFF = 0xbaadf00d) := hu
  unfold walk_body spec_kind spec_leaf
  simp only []
  rw [if_neg hu2]
  split_ifs <;> rfl

theorem spec_words_from_head (cfg : Config) (stride : Nat) (m : VMManager) (va i b : Nat) :
    read_pte m (spec_pte_address cfg stride b (vAddr_vpn cfg va i)) ∈
      spec_words_from cfg stride m va i b := by
  cases i with
  | zero => simp [spec_words_from]
  | succ j =>
    rw [spec_words_from]
    split <;> simp

theorem walk_loop_eq_spec (cfg : Config) (m : VMManager) (va : Nat) :
    ∀ (i b : Nat), (∀ w ∈ spec_words_from cfg cfg.PT_SIZE m va i b, is_uninit w = false) →
      (walk_loop cfg m va i b).2 = spec_walk_from cfg cfg.PT_SIZE m va i b := by
  intro i
  induction i with
  | zero =>
    intro b h
    have hu := h _ (spec_words_from_head cfg cfg.PT_SIZE m va 0 b)
    rw [spec_pte_address_stride] at hu
    rw [walk_loop, spec_walk_from]
    simp only [spec_pte_address_stride, walk_body_eq_spec cfg va _ hu]
    cases spec_kind (PTE_t.decode cfg (read_pte m (get_pte_address cfg b (vAddr_vpn cfg va 0)))) <;>
      rfl
  | succ j ih =>
    intro b h
    have hu := h _ (spec_words_from_head cfg cfg.PT_SIZE m va (j + 1) b)
    rw [spec_pte_address_stride] at hu
    rw [spec_words_from] at h
    rw [walk_loop, spec_walk_from]
    simp only [spec_pte_address_stride, walk_body_eq_spec cfg va _ hu] at h ⊢
    cases hk : spec_kind (PTE_t.decode cfg
        (read_pte m (get_pte_address cfg b (vAddr_vpn cfg va (j + 1))))) with
    | invalid => rfl
    | leaf => rfl
    | forwarding =>
      simp only [hk] at h
      exact ih _ (fun w hw => h w (List.mem_cons_of_mem _ hw))

/-! ## The claims -/

/-- C1 (round trip of `map_p2v` and `page_table_walk`), evaluated: on the manager
initialised in the translated configuration `sv39` with every allocation succeeding,
`map_p2v(0x20000, 7)` (flags valid, read, write) returns the virtual page 1, the
address `(1 << 12) | 0x123` needs translation, and `page_table_walk` of it throws the
"invalid entry" fault instead of returning `(0x20000 << 12) + 0x123`. The same happens
when the page number of an entry is read from bit 12 on (`sv39_shift12`). -/
theorem round_trip_evaluation :
    ((fresh_init sv39).1 = 0 ∧
      (map_p2v sv39 (fresh sv39) 0x20000 7).1 = Outcome.ret 1 ∧
      need_trans sv39 (map_p2v sv39 (fresh sv39) 0x20000 7).2 ((1 <<< 12) ||| 0x123) = true ∧
      page_table_walk sv39 (map_p2v sv39 (fresh sv39) 0x20000 7).2 ((1 <<< 12) ||| 0x123) =
        WalkResult.page_fault PageFault.invalid_entry ∧
      page_table_walk sv39 (map_p2v sv39 (fresh sv39) 0x20000 7).2 ((1 <<< 12) ||| 0x123) ≠
        WalkResult.ret ((0x20000 <<< 12) + 0x123)) ∧
    ((fresh_init sv39_shift12).1 = 0 ∧
      (map_p2v sv39_shift12 (fresh sv39_shift12) 0x20000 7).1 = Outcome.ret 1 ∧
      need_trans sv39_shift12 (map_p2v sv39_shift12 (fresh sv39_shift12) 0x20000 7).2
        ((1 <<< 12) ||| 0x123) = true ∧
      page_table_walk sv39_shift12 (map_p2v sv39_shift12 (fresh sv39_shift12) 0x20000 7).2
        ((1 <<< 12) ||| 0x123) = WalkResult.page_fault PageFault.invalid_entry) := by
  refine ⟨⟨by rfl, by rfl, by rfl, by rfl, by decide⟩, by rfl, by rfl, by rfl, by rfl⟩

/-- C3 (characterisation of `need_trans`): for every address and processor state,
`need_trans(a)` is true exactly when a translation root is installed, the mode is not
`BARE`, `USER_BASE_ADDR <= a < PAGE_TABLE_BASE_ADDR` and `a` is outside the startup range
`STARTUP_ADDR <= a <= STARTUP_ADDR + 0x40000`; otherwise it is false. -/
theorem need_trans_iff (cfg : Config) (m : VMManager) (a : Nat) :
    need_trans cfg m a = true ↔
      (m.processor_.satp_unset = false ∧ get_mode m ≠ cfg.BARE ∧
        cfg.USER_BASE_ADDR ≤ a ∧ a < cfg.PAGE_TABLE_BASE_ADDR ∧
        ¬ (cfg.STARTUP_ADDR ≤ a ∧ a ≤ cfg.STARTUP_ADDR + 0x40000)) := by
  unfold need_trans
  cases hs : m.processor_.satp_unset <;> by_cases hm : get_mode m = cfg.BARE <;>
    by_cases h1 : cfg.PAGE_TABLE_BASE_ADDR ≤ a <;> by_cases h2 : a < cfg.USER_BASE_ADDR <;>
    simp [hm, h1, h2]
  all_goals omega

/-- C4 as stated fails: on the initialised `sv39` manager the top-level entry selected
by the address `STARTUP_ADDR = 0x180000000` has valid = 0, yet `page_table_walk` returns
the address unchanged and throws nothing, because the address lies in the startup range
and needs no translation. -/
theorem walk_unmapped_counterexample :
    (top_level_pte sv39 (fresh sv39) 0x180000000).v = false ∧
      page_table_walk sv39 (fresh sv39) 0x180000000 = WalkResult.ret 0x180000000 ∧
      page_table_walk sv39 (fresh sv39) 0x180000000 ≠
        WalkResult.page_fault PageFault.invalid_entry := by
  refine ⟨by rfl, by rfl, by decide⟩

/-- C4 amended (fault on unmapped): for every virtual address that needs translation and
every RAM state in which the top-level entry it selects has valid = 0, `page_table_walk`
throws the "invalid entry" page fault. -/
theorem walk_invalid_top (cfg : Config) (m : VMManager) (v : Nat)
    (hnt : need_trans cfg m v = true) (hv : (top_level_pte cfg m v).v = false) :
    page_table_walk cfg m v = WalkResult.page_fault PageFault.invalid_entry := by
  rw [page_table_walk_of_need_trans cfg m v hnt,
    walk_loop_finish cfg m v _ _ _ (walk_body_invalid cfg v _ hv)]

/-- Witness of C4 amended: the address `0x1123` on the initialised `sv39` manager, whose
root table is all zero. -/
theorem walk_invalid_top_witness :
    page_table_walk sv39 (fresh sv39) 0x1123 = WalkResult.page_fault PageFault.invalid_entry :=
  walk_invalid_top sv39 (fresh sv39) 0x1123 (by rfl) (by rfl)

/-- C5 as stated fails: in the table `sv39_table` the walk of `0x1123` reaches the
final-level entry at base `0x1F0002`. With the leaf `(0x20000 << 10) | 5` that entry is
valid with read = 0 and write = 1, and `page_table_walk` throws "invalid entry"; with
the leaf `(0x20000 << 10) | 1` it is valid with read = write = execute = 0, and
`page_table_walk` throws "no leaf found". Neither is the permission fault. -/
theorem walk_permission_counterexample :
    (need_trans sv39 (sv39_table ((0x20000 <<< 10) ||| 5)) 0x1123 = true ∧
      walk_base sv39 (sv39_table ((0x20000 <<< 10) ||| 5)) 0x1123 (sv39.PT_LEVEL - 1) =
        some 0x1F0002 ∧
      (PTE_t.decode sv39 (read_pte (sv39_table ((0x20000 <<< 10) ||| 5))
        (get_pte_address sv39 0x1F0002 (vAddr_vpn sv39 0x1123 0)))).v = true ∧
      (PTE_t.decode sv39 (read_pte (sv39_table ((0x20000 <<< 10) ||| 5))
        (get_pte_address sv39 0x1F0002 (vAddr_vpn sv39 0x1123 0)))).r = false ∧
      page_table_walk sv39 (sv39_table ((0x20000 <<< 10) ||| 5)) 0x1123 =
        WalkResult.page_fault PageFault.invalid_entry ∧
      page_table_walk sv39 (sv39_table ((0x20000 <<< 10) ||| 5)) 0x1123 ≠
        WalkResult.page_fault PageFault.load_permission) ∧
    (need_trans sv39 (sv39_table ((0x20000 <<< 10) ||| 1)) 0x1123 = true ∧
      walk_base sv39 (sv39_table ((0x20000 <<< 10) ||| 1)) 0x1123 (sv39.PT_LEVEL - 1) =
        some 0x1F0002 ∧
      (PTE_t.decode sv39 (read_pte (sv39_table ((0x20000 <<< 10) ||| 1))
        (get_pte_address sv39 0x1F0002 (vAddr_vpn sv39 0x1123 0)))).v = true ∧
      (PTE_t.decode sv39 (read_pte (sv39_table ((0x20000 <<< 10) ||| 1))
        (get_pte_address sv39 0x1F0002 (vAddr_vpn sv39 0x1123 0)))).r = false ∧
      page_table_walk sv39 (sv39_table ((0x20000 <<< 10) ||| 1)) 0x1123 =
        WalkResult.page_fault PageFault.no_leaf ∧
      page_table_walk sv39 (sv39_table ((0x20000 <<< 10) ||| 1)) 0x1123 ≠
        WalkResult.page_fault PageFault.load_permission) := by
  refine ⟨⟨by rfl, by rfl, by rfl, by rfl, by rfl, by decide⟩,
    by rfl, by rfl, by rfl, by rfl, by rfl, by decide⟩

/-- C5 amended (fault on permission): for every virtual address that needs translation
and whose walk reaches the final level through forwarding entries, if the final-level
entry passes the assertion on `0xbaadf00d` and is valid with read = 0, write = 0 and
execute = 1, then `page_table_walk` throws the "incorrect permissions" fault of a load. -/
theorem walk_permission_final (cfg : Config) (m : VMManager) (va b : Nat)
    (hnt : need_trans cfg m va = true)
    (hreach : walk_base cfg m va (cfg.PT_LEVEL - 1) = some b)
    (hu : is_uninit (read_pte m (get_pte_address cfg b (vAddr_vpn cfg va 0))) = false)
    (hv : (PTE_t.decode cfg (read_pte m (get_pte_address cfg b (vAddr_vpn cfg va 0)))).v = true)
    (hr : (PTE_t.decode cfg (read_pte m (get_pte_address cfg b (vAddr_vpn cfg va 0)))).r = false)
    (hw : (PTE_t.decode cfg (read_pte m (get_pte_address cfg b (vAddr_vpn cfg va 0)))).w = false)
    (hx : (PTE_t.decode cfg (read_pte m (get_pte_address cfg b (vAddr_vpn cfg va 0)))).x = true) :
    page_table_walk cfg m va = WalkResult.page_fault PageFault.load_permission := by
  rw [page_table_walk_of_need_trans cfg m va hnt,
    walk_loop_of_walk_base cfg m va _ b (le_refl _) hreach, Nat.sub_self]
  have hb : walk_body cfg va (read_pte m (get_pte_address cfg b (vAddr_vpn cfg va 0))) =
      WalkStep.finish (WalkResult.page_fault PageFault.load_permission) := by
    unfold is_uninit at hu
    simp only [beq_eq_false_iff_ne, ne_eq] at hu
    have hu2 : ¬ ((PTE_t.decode cfg (read_pte m (get_pte_address cfg b
        (vAddr_vpn cfg va 0)))).pte_bytes &&& 0xFFFFFFFF = 0xbaadf00d) := hu
    unfold walk_body
    simp only []
    rw [if_neg hu2, if_neg (by simp [hv, hw]), if_neg (by simp [hx]), if_pos hr]
  rw [walk_loop_finish cfg m va 0 b _ hb]

/-- Witness of C5 amended: the table `sv39_table` with the leaf `(0x20000 << 10) | 9`
(valid and execute only). -/
theorem walk_permission_final_witness :
    page_table_walk sv39 (sv39_table ((0x20000 <<< 10) ||| 9)) 0x1123 =
      WalkResult.page_fault PageFault.load_permission :=
  walk_permission_final sv39 (sv39_table ((0x20000 <<< 10) ||| 9)) 0x1123 0x1F0002
    (by rfl) (by rfl) (by rfl) (by rfl) (by rfl) (by rfl) (by rfl)

/-- C6 as stated fails twice. In the table `sv39_table` with a readable leaf the code
returns `0x20000123`, while the reference that multiplies the table base by the number
of entries per table (512) reads another word and faults. And on a root entry holding
`0xbaadf00d` the code fails its assertion, while the reference (even with the base
multiplied by `PT_SIZE`) throws "invalid entry". -/
theorem page_table_walk_spec_counterexample :
    (need_trans sv39 (sv39_table ((0x20000 <<< 10) ||| 7)) 0x1123 = true ∧
      entries_per_table sv39 = 512 ∧
      page_table_walk sv39 (sv39_table ((0x20000 <<< 10) ||| 7)) 0x1123 =
        WalkResult.ret 0x20000123 ∧
      spec_walk sv39 (entries_per_table sv39) (sv39_table ((0x20000 <<< 10) ||| 7)) 0x1123 =
        WalkResult.page_fault PageFault.invalid_entry) ∧
    (need_trans sv39 sv39_uninit 0x1123 = true ∧
      page_table_walk sv39 sv39_uninit 0x1123 = WalkResult.assert_fail ∧
      spec_walk sv39 sv39.PT_SIZE sv39_uninit 0x1123 =
        WalkResult.page_fault PageFault.invalid_entry) := by
  refine ⟨⟨by rfl, by rfl, by rfl, by rfl⟩, by rfl, by rfl, by rfl⟩

/-- C6 amended (`page_table_walk` equals the reference walk): for every RAM state,
translation root and virtual address that needs translation, if no word the reference
walk reads has `0xbaadf00d` in its low 32 bits, then `page_table_walk` ends exactly as
the reference walk of section 4.1 that reads the entry at
`currentBase * PT_SIZE + indexField[i] * PTE_SIZE`: the same address on a readable leaf,
and the same fault kind in each of the three fault cases. -/
theorem page_table_walk_eq_spec (cfg : Config) (m : VMManager) (va : Nat)
    (hnt : need_trans cfg m va = true)
    (hwords : ∀ w ∈ spec_words cfg cfg.PT_SIZE m va, is_uninit w = false) :
    page_table_walk cfg m va = spec_walk cfg cfg.PT_SIZE m va := by
  rw [page_table_walk_of_need_trans cfg m va hnt]
  exact walk_loop_eq_spec cfg m va _ _ hwords

/-- Witness of C6 amended: the table `sv39_table` with a readable leaf. -/
theorem page_table_walk_eq_spec_witness :
    page_table_walk sv39 (sv39_table ((0x20000 <<< 10) ||| 7)) 0x1123 =
      spec_walk sv39 sv39.PT_SIZE (sv39_table ((0x20000 <<< 10) ||| 7)) 0x1123 :=
  page_table_walk_eq_spec sv39 (sv39_table ((0x20000 <<< 10) ||| 7)) 0x1123 (by rfl)
    (by decide)

/-- C7 (pass-through when no translation applies): if the mode is `BARE` or no
translation root is installed, `page_table_walk(v)` returns `v` unchanged, reads no
page-table entry and throws nothing. -/
theorem page_table_walk_passthrough (cfg : Config) (m : VMManager) (v : Nat)
    (h : get_mode m = cfg.BARE ∨ m.processor_.satp_unset = true) :
    page_table_walk_log cfg m v = ([], WalkResult.ret v) ∧
      page_table_walk cfg m v = WalkResult.ret v := by
  have hn : need_trans cfg m v = false := by
    unfold need_trans
    rcases h with h | h <;> simp [h]
  simp [page_table_walk, page_table_walk_log, hn]

/-- Witness of C7: the manager before initialisation, whose translation root is unset. -/
theorem page_table_walk_passthrough_witness :
    page_table_walk_log sv39 blank 0x1123 = ([], WalkResult.ret 0x1123) ∧
      page_table_walk sv39 blank 0x1123 = WalkResult.ret 0x1123 :=
  page_table_walk_passthrough sv39 blank 0x1123 (Or.inr rfl)

/-- C8 (region coverage of `phy_to_virt_map`), evaluated on the initialised `sv39`
manager. The call with `p = 0x20000000` and `size = 0x1001` returns 0; the region
`[p, p + size)` contains the first byte of the page `0x20001`, and that page has no
entry in the address-mapping cache afterwards (only the page `0x20000` has one). The
same holds for the unaligned `p = 0x20000800` with `size = 0x1000`. -/
theorem region_coverage_evaluation :
    (need_trans sv39 (fresh sv39) 0x20000000 = true ∧
      (phy_to_virt_map sv39 (fresh sv39) 0 0x1001 0x20000000 7).1 = Outcome.ret 0 ∧
      (0x20000000 ≤ 0x20001 <<< sv39.MEM_PAGE_LOG2_SIZE ∧
        0x20001 <<< sv39.MEM_PAGE_LOG2_SIZE < 0x20000000 + 0x1001) ∧
      (phy_to_virt_map sv39 (fresh sv39) 0 0x1001 0x20000000 7).2.2.addr_mapping.lookup
        0x20001 = none ∧
      (phy_to_virt_map sv39 (fresh sv39) 0 0x1001 0x20000000 7).2.2.addr_mapping =
        [(0x20000, 1)]) ∧
    (need_trans sv39 (fresh sv39) 0x20000800 = true ∧
      (phy_to_virt_map sv39 (fresh sv39) 0 0x1000 0x20000800 7).1 = Outcome.ret 0 ∧
      (0x20000800 ≤ 0x20001 <<< sv39.MEM_PAGE_LOG2_SIZE ∧
        0x20001 <<< sv39.MEM_PAGE_LOG2_SIZE < 0x20000800 + 0x1000) ∧
      (phy_to_virt_map sv39 (fresh sv39) 0 0x1000 0x20000800 7).2.2.addr_mapping.lookup
        0x20001 = none) := by
  refine ⟨⟨by rfl, by rfl, by decide, by rfl, by rfl⟩, by rfl, by rfl, by decide, by rfl⟩

/-- C9 (composed virtual address of `phy_to_virt_map`): for an address `p` that needs
translation, on a manager whose cache holds page numbers and with
`MEM_PAGE_SIZE = 2 ^ MEM_PAGE_LOG2_SIZE`, if the call returns 0 and `v` is what
`map_p2v(p >> MEM_PAGE_LOG2_SIZE, flags)` returned, then the output virtual address is
`(v << MEM_PAGE_LOG2_SIZE) | (p mod MEM_PAGE_SIZE)`, its page number is `v`, its
intra-page offset is that of `p`, and the cache maps the page of `p` to `v`. -/
theorem phy_to_virt_map_composed (cfg : Config) (m m1 m2 : VMManager)
    (dev_vAddr size p flags v vout : Nat)
    (hps : cfg.MEM_PAGE_SIZE = 2 ^ cfg.MEM_PAGE_LOG2_SIZE)
    (hc : cache_bounded cfg m)
    (hnt : need_trans cfg m p = true)
    (hmap : map_p2v cfg m (p >>> cfg.MEM_PAGE_LOG2_SIZE) flags = (Outcome.ret v, m1))
    (h : phy_to_virt_map cfg m dev_vAddr size p flags = (Outcome.ret 0, vout, m2)) :
    vout = ((v <<< cfg.MEM_PAGE_LOG2_SIZE) % U64 ||| p % cfg.MEM_PAGE_SIZE) ∧
      vout >>> cfg.MEM_PAGE_LOG2_SIZE = v ∧
      vout % cfg.MEM_PAGE_SIZE = p % cfg.MEM_PAGE_SIZE ∧
      m2.addr_mapping.lookup (p >>> cfg.MEM_PAGE_LOG2_SIZE) = some v := by
  unfold phy_to_virt_map at h
  rw [if_neg (by simp [hnt])] at h
  dsimp only at h
  rw [hmap] at h
  dsimp only at h
  split at h
  · simp at h
  · next u m3 hloop =>
    simp only [Prod.mk.injEq, true_and] at h
    obtain ⟨hvout, hm⟩ := h
    have hv := map_p2v_bounded cfg m m1 _ flags v hc hmap
    have hcomp := compose_page_offset v p cfg.MEM_PAGE_LOG2_SIZE hv
    rw [hvout] at hcomp
    refine ⟨?_, hcomp.2.1, ?_, ?_⟩
    · rw [hps]; exact hcomp.1
    · rw [hps]; exact hcomp.2.2
    · have h1 := map_p2v_lookup_result cfg m m1 _ flags v hmap
      have h2 := map_pages_lookup_stable cfg flags (p >>> cfg.MEM_PAGE_LOG2_SIZE) v
        ((p >>> cfg.MEM_PAGE_LOG2_SIZE + size >>> cfg.MEM_PAGE_LOG2_SIZE) % U64 -
          p >>> cfg.MEM_PAGE_LOG2_SIZE) (p >>> cfg.MEM_PAGE_LOG2_SIZE) m1 h1
      rw [hloop] at h2
      rw [← hm]
      exact h2

/-- Witness of C9: the address `0x20000123` and a region of two pages on the initialised
`sv39` manager; the output is `0x1123`. -/
theorem phy_to_virt_map_composed_witness :
    0x1123 = ((1 <<< sv39.MEM_PAGE_LOG2_SIZE) % U64 ||| 0x20000123 % sv39.MEM_PAGE_SIZE) ∧
      0x1123 >>> sv39.MEM_PAGE_LOG2_SIZE = 1 ∧
      0x1123 % sv39.MEM_PAGE_SIZE = 0x20000123 % sv39.MEM_PAGE_SIZE ∧
      (phy_to_virt_map sv39 (fresh sv39) 0 0x2000 0x20000123 7).2.2.addr_mapping.lookup
        (0x20000123 >>> sv39.MEM_PAGE_LOG2_SIZE) = some 1 :=
  phy_to_virt_map_composed sv39 (fresh sv39)
    (map_p2v sv39 (fresh sv39) (0x20000123 >>> sv39.MEM_PAGE_LOG2_SIZE) 7).2
    (phy_to_virt_map sv39 (fresh sv39) 0 0x2000 0x20000123 7).2.2
    0 0x2000 0x20000123 7 1 0x1123 (by rfl)
    (cache_bounded_of_empty sv39 (fresh sv39) (by rfl)) (by rfl) (by rfl) (by rfl)

/-- C10 (no-translation case of `phy_to_virt_map`): if `need_trans(p)` is false, the call
returns 0, leaves the output virtual address as it was, and leaves the manager (cache,
both allocators, RAM) unchanged. -/
theorem phy_to_virt_map_no_trans (cfg : Config) (m : VMManager) (dev_vAddr size p flags : Nat)
    (h : need_trans cfg m p = false) :
    phy_to_virt_map cfg m dev_vAddr size p flags = (Outcome.ret 0, dev_vAddr, m) := by
  simp [phy_to_virt_map, h]

/-- Witness of C10: an address of the startup range on the initialised `sv39` manager. -/
theorem phy_to_virt_map_no_trans_witness :
    phy_to_virt_map sv39 (fresh sv39) 0xABCD 0x2000 0x180000000 7 =
      (Outcome.ret 0, 0xABCD, fresh sv39) :=
  phy_to_virt_map_no_trans sv39 (fresh sv39) 0xABCD 0x2000 0x180000000 7 (by rfl)

/-! ## Lemmas on the builder -/

/-- The traced loop computes the status and the manager of `update_loop`. -/
theorem update_loop_traced_eq (cfg : Config) (ppn vpn flags : Nat) :
    ∀ (n cur : Nat) (m : VMManager),
      (update_loop_traced cfg ppn vpn flags n cur m).2 = update_loop cfg ppn vpn flags n cur m := by
  intro n
  induction n with
  | zero => intro cur m; rfl
  | succ i ih =>
    intro cur m
    rw [update_loop_traced, update_loop]
    dsimp only
    split_ifs
    · exact ih _ _
    · exact ih _ _
    · rfl
    · exact ih _ _

theorem update_loop_traced_length_le (cfg : Config) (ppn vpn flags : Nat) :
    ∀ (n cur : Nat) (m : VMManager),
      (update_loop_traced cfg ppn vpn flags n cur m).1.length ≤ n := by
  intro n
  induction n with
  | zero => intro cur m; simp [update_loop_traced]
  | succ i ih =>
    intro cur m
    rw [update_loop_traced]
    dsimp only
    split_ifs
    · simpa using ih _ _
    · simpa using ih _ _
    · simp
    · simpa using ih _ _

theorem update_loop_traced_length_eq (cfg : Config) (ppn vpn flags : Nat) :
    ∀ (n cur : Nat) (m : VMManager),
      (update_loop_traced cfg ppn vpn flags n cur m).2.1 = 0 →
        (update_loop_traced cfg ppn vpn flags n cur m).1.length = n := by
  intro n
  induction n with
  | zero => intro cur m _; simp [update_loop_traced]
  | succ i ih =>
    intro cur m
    rw [update_loop_traced]
    dsimp only
    split_ifs
    · intro h; simpa using ih _ _ h
    · intro h; simpa using ih _ _ h
    · intro h; simp at h
    · intro h; simpa using ih _ _ h

/-- The status is non-zero exactly when the steps contain a failed allocation. -/
theorem update_loop_traced_status (cfg : Config) (ppn vpn flags : Nat) :
    ∀ (n cur : Nat) (m : VMManager),
      ((update_loop_traced cfg ppn vpn flags n cur m).2.1 ≠ 0 ↔
        (update_loop_traced cfg ppn vpn flags n cur m).1.any BuildStep.is_alloc_failed = true) := by
  intro n
  induction n with
  | zero => intro cur m; simp [update_loop_traced]
  | succ i ih =>
    intro cur m
    rw [update_loop_traced]
    dsimp only
    split_ifs
    · simpa [BuildStep.is_alloc_failed] using ih _ _
    · simpa [BuildStep.is_alloc_failed] using ih _ _
    · simp [BuildStep.is_alloc_failed]
    · simpa [BuildStep.is_alloc_failed] using ih _ _

/-- A failed allocation is recorded only at a non-final level below the number of
levels, for a word with bit 0 clear. -/
theorem update_loop_traced_alloc_failed (cfg : Config) (ppn vpn flags : Nat) :
    ∀ (n cur : Nat) (m : VMManager) (i a w : Nat),
      BuildStep.alloc_failed i a w ∈ (update_loop_traced cfg ppn vpn flags n cur m).1 →
        1 ≤ i ∧ i < n ∧ w &&& 1 = 0 := by
  intro n
  induction n with
  | zero => intro cur m i a w h; simp [update_loop_traced] at h
  | succ j ih =>
    intro cur m i a w
    rw [update_loop_traced]
    dsimp only
    split_ifs with h1 h2 h3
    · intro h
      simp only [List.mem_cons] at h
      rcases h with h | h
      · exact absurd h (by simp)
      · have := ih _ _ _ _ _ h; omega
    · intro h
      simp only [List.mem_cons] at h
      rcases h with h | h
      · exact absurd h (by simp)
      · have := ih _ _ _ _ _ h; omega
    · intro h
      simp only [List.mem_singleton, BuildStep.alloc_failed.injEq] at h
      obtain ⟨rfl, -, rfl⟩ := h
      refine ⟨by omega, by omega, ?_⟩
      simpa using h1
    · intro h
      simp only [List.mem_cons] at h
      rcases h with h | h
      · exact absurd h (by simp)
      · have := ih _ _ _ _ _ h; omega

theorem alloc_page_table_allocated (cfg : Config) (m : VMManager) :
    (alloc_page_table cfg m).2.2.page_table_mem_.allocated = m.page_table_mem_.allocated + 1 := by
  unfold alloc_page_table init_page_table MemoryAllocator.allocate
  dsimp only
  split_ifs <;> rfl

/-- The page-table allocator has served one call per recorded allocation, failed or
not: nothing is given back. -/
theorem update_loop_traced_allocated (cfg : Config) (ppn vpn flags : Nat) :
    ∀ (n cur : Nat) (m : VMManager),
      (update_loop_traced cfg ppn vpn flags n cur m).2.2.page_table_mem_.allocated =
        m.page_table_mem_.allocated +
          (update_loop_traced cfg ppn vpn flags n cur m).1.countP BuildStep.is_node +
          (update_loop_traced cfg ppn vpn flags n cur m).1.countP BuildStep.is_alloc_failed := by
  intro n
  induction n with
  | zero => intro cur m; simp [update_loop_traced]
  | succ i ih =>
    intro cur m
    rw [update_loop_traced]
    dsimp only
    split_ifs
    · rw [ih]; simp [BuildStep.is_node, BuildStep.is_alloc_failed]
    · rw [ih]; simp [BuildStep.is_node, BuildStep.is_alloc_failed, write_pte]
    · simp [BuildStep.is_node, BuildStep.is_alloc_failed, alloc_page_table_allocated]
    · rw [ih]
      simp only [List.countP_cons, BuildStep.is_node, BuildStep.is_alloc_failed]
      have h := alloc_page_table_allocated cfg m
      have h2 : (write_pte (alloc_page_table cfg m).2.2
          (get_pte_address cfg cur (vpn >>> (i * cfg.MEM_PAGE_LOG2_SIZE)))
          ((alloc_page_table cfg m).2.1 <<< cfg.MEM_PAGE_LOG2_SIZE % U64 ||| 1)).page_table_mem_ =
          (alloc_page_table cfg m).2.2.page_table_mem_ := rfl
      rw [h2, h]
      simp
      omega

/-- The allocation of a node fails exactly when the page-table allocator answers a
non-zero status. -/
theorem alloc_page_table_status (cfg : Config) (m : VMManager) :
    (alloc_page_table cfg m).1 ≠ 0 ↔
      (m.page_table_mem_.allocate_reply m.page_table_mem_.allocated).status ≠ 0 := by
  unfold alloc_page_table init_page_table MemoryAllocator.allocate
  dsimp only
  split_ifs <;> simp_all

theorem map_p2v_miss (cfg : Config) (m : VMManager) (p flags : Nat)
    (hmiss : m.addr_mapping.lookup p = none) :
    map_p2v cfg m p flags =
      if (update_page_table cfg (map_p2v_entry cfg m) p (map_p2v_vpn cfg m) flags).1 ≠ 0 then
        (Outcome.runtime_error,
          (update_page_table cfg (map_p2v_entry cfg m) p (map_p2v_vpn cfg m) flags).2)
      else
        (Outcome.ret (map_p2v_vpn cfg m),
          { (update_page_table cfg (map_p2v_entry cfg m) p (map_p2v_vpn cfg m) flags).2 with
            addr_mapping := map_assign
              (update_page_table cfg (map_p2v_entry cfg m) p (map_p2v_vpn cfg m) flags).2.addr_mapping
              p (map_p2v_vpn cfg m) }) := by
  unfold map_p2v
  rw [hmiss]
  rfl

theorem update_loop_of_descend (cfg : Config) (ppn vpn flags : Nat) :
    ∀ (k cur : Nat) (m : VMManager) (b : Nat) (m0 : VMManager),
      update_descend cfg vpn k cur m = some (b, m0) →
        update_loop cfg ppn vpn flags (k + 1) cur m = update_loop cfg ppn vpn flags 1 b m0 := by
  intro k
  induction k with
  | zero =>
    intro cur m b m0 h
    simp only [update_descend, Option.some.injEq, Prod.mk.injEq] at h
    obtain ⟨rfl, rfl⟩ := h
    rfl
  | succ k ih =>
    intro cur m b m0 h
    rw [update_descend] at h
    dsimp only at h
    rw [update_loop]
    dsimp only
    split_ifs at h with h1 h2
    · rw [if_pos h1]
      exact ih _ _ _ _ h
    · rw [if_neg h1, if_neg (by omega), if_neg h2]
      exact ih _ _ _ _ h

theorem update_loop_final (cfg : Config) (ppn vpn flags b : Nat) (m0 : VMManager) :
    update_loop cfg ppn vpn flags 1 b m0 =
      if read_pte m0 (get_pte_address cfg b vpn) &&& 1 ≠ 0 then (0, m0)
      else (0, write_pte m0 (get_pte_address cfg b vpn) (leaf_entry cfg ppn flags)) := by
  rw [update_loop]
  simp only [Nat.zero_mul, Nat.shiftRight_zero, update_loop, if_true, leaf_entry]

theorem leaf_entry_lt (cfg : Config) (ppn flags : Nat) : leaf_entry cfg ppn flags < U64 := by
  unfold leaf_entry U64
  apply Nat.or_lt_two_pow
  · exact Nat.mod_lt _ (by positivity)
  · exact lt_of_lt_of_le (Nat.mod_lt _ (by positivity)) (Nat.pow_le_pow_right (by norm_num) (by norm_num))


theorem update_loop_traced_failed_count (cfg : Config) (ppn vpn flags : Nat) :
    ∀ (n cur : Nat) (m : VMManager),
      (update_loop_traced cfg ppn vpn flags n cur m).1.countP BuildStep.is_alloc_failed =
        if (update_loop_traced cfg ppn vpn flags n cur m).2.1 ≠ 0 then 1 else 0 := by
  intro n
  induction n with
  | zero => intro cur m; simp [update_loop_traced]
  | succ i ih =>
    intro cur m
    rw [update_loop_traced]
    dsimp only
    split_ifs <;> simp_all [BuildStep.is_alloc_failed]

/-- The steps, the status and the final manager of `update_page_table` in terms of the
traced loop. -/
theorem update_page_table_traced (cfg : Config) (m : VMManager) (ppn vpn flags : Nat) :
    (update_loop_traced cfg ppn vpn flags cfg.PT_LEVEL (get_base_ppn m) m).2 =
      update_page_table cfg m ppn vpn flags :=
  update_loop_traced_eq cfg ppn vpn flags _ _ _

/-- The status of `init_VM` is 0 exactly when the `mem_reserve` callback, the root
allocation (in a translated mode) and `set_satp_by_addr` succeed; the answers of the two
virtual-window reservations do not enter. -/
theorem init_VM_status (cfg : Config) (m : VMManager) (mem_reserve : Nat → Nat → Int → Int)
    (mem_free : Nat → Int) (pt_new vm_new : MemoryAllocator) (satp_status : Int) :
    (init_VM cfg m mem_reserve mem_free pt_new vm_new satp_status).1 = 0 ↔
      (mem_reserve cfg.PAGE_TABLE_BASE_ADDR cfg.PT_SIZE_LIMIT cfg.VX_MEM_READ_WRITE = 0 ∧
        (cfg.VM_ADDR_MODE ≠ cfg.BARE → (pt_new.allocate_reply pt_new.allocated).status = 0) ∧
        satp_status = 0) := by
  unfold init_VM
  by_cases hr : mem_reserve cfg.PAGE_TABLE_BASE_ADDR cfg.PT_SIZE_LIMIT cfg.VX_MEM_READ_WRITE = 0
  · rw [if_neg (by simp [hr])]
    dsimp only
    by_cases hmode : cfg.VM_ADDR_MODE = cfg.BARE
    · rw [if_neg (by simp [hmode])]
      simp only [set_satp_by_addr]
      by_cases hs : satp_status = 0 <;> simp [hr, hmode, hs]
    · rw [if_pos hmode]
      simp only [alloc_page_table, init_page_table, virtual_mem_reserve,
        MemoryAllocator.allocate, set_satp_by_addr]
      by_cases ha : (pt_new.allocate_reply pt_new.allocated).status = 0 <;>
        by_cases hs : satp_status = 0 <;> simp [hr, hmode, ha, hs]
  · rw [if_pos hr]
    simp [hr]

/-- A call of the builder writes at most one leaf entry. -/
theorem update_loop_traced_leaf_count (cfg : Config) (ppn vpn flags : Nat) :
    ∀ (n cur : Nat) (m : VMManager),
      (update_loop_traced cfg ppn vpn flags n cur m).1.countP BuildStep.is_leaf ≤ 1 := by
  intro n
  induction n with
  | zero => intro cur m; simp [update_loop_traced]
  | succ i ih =>
    intro cur m
    rw [update_loop_traced]
    dsimp only
    split_ifs with h1 h2 h3
    · simpa [BuildStep.is_leaf] using ih _ _
    · subst h2
      simp [BuildStep.is_leaf, update_loop_traced]
    · simp [BuildStep.is_leaf]
    · simpa [BuildStep.is_leaf] using ih _ _

/-- When the write throws, the statements of `write_pte` stop after the first and access
control stays disabled. -/
theorem run_write_pte_ops_throw (write_throws : Nat → Nat → Bool) (ram : RAM) (addr value : Nat)
    (h : write_throws addr 8 = true) :
    run_ram_ops write_throws (write_pte_ops addr value) ram = (true, ram.enable_acl false) := by
  simp [write_pte_ops, run_ram_ops, h]

theorem walk_loop_reads_le (cfg : Config) (m : VMManager) (va : Nat) :
    ∀ (i cur : Nat), (walk_loop cfg m va i cur).1.length ≤ i + 1 := by
  intro i
  induction i with
  | zero =>
    intro cur
    rw [walk_loop]
    split <;> simp
  | succ j ih =>
    intro cur
    rw [walk_loop]
    split
    · simp
    · next ppn _ =>
      have := ih ppn
      simp only [List.length_cons]
      omega

theorem aligned_size_ge (size alignment : Nat) (h : 0 < alignment) :
    size ≤ aligned_size size alignment := by
  unfold aligned_size
  have h1 := Nat.div_add_mod (size + alignment - 1) alignment
  have h2 := Nat.mod_lt (size + alignment - 1) h
  rw [Nat.mul_comm] at h1
  omega

/-- After a successful `alloc_page_table` every byte of the node is zero. -/
theorem alloc_page_table_bytes (cfg : Config) (m m1 : VMManager) (a : Nat)
    (hblock : 0 < cfg.CACHE_BLOCK_SIZE) (h : alloc_page_table cfg m = (0, a, m1)) :
    ∀ x, a ≤ x → x < a + cfg.PT_SIZE → m1.ram_.mem x = 0 := by
  intro x hx1 hx2
  have hge := aligned_size_ge cfg.PT_SIZE cfg.CACHE_BLOCK_SIZE hblock
  have hst : (m.page_table_mem_.allocate cfg.PT_SIZE).1.status = 0 := by
    by_contra hne
    have := (alloc_page_table_status cfg m).mpr hne
    rw [h] at this
    exact this rfl
  unfold alloc_page_table init_page_table at h
  dsimp only at h
  rw [if_neg (by simp [hst]), if_neg (by simp)] at h
  simp only [Prod.mk.injEq, true_and] at h
  obtain ⟨ha, hm⟩ := h
  rw [← hm]
  simp only [RAM.enable_acl, RAM.write]
  rw [ha, if_pos ⟨hx1, by omega⟩]

theorem ram_read_zero (ram : RAM) :
    ∀ (n a : Nat), (∀ k, k < n → ram.mem (a + k) = 0) → ram.read a n = 0 := by
  intro n a h
  have := ram_read_bytes ram 0 n a 0 (fun k hk => by rw [h k hk]; simp)
  simpa using this

theorem testBit_zero_of_low_byte (ram : RAM) (a n : Nat) (h : ram.mem a = 0) :
    (ram.read a (n + 1)) % 2 = 0 := by
  rw [RAM.read, h]
  omega

/-- C11 as stated fails: in the table `sv39_builder_table` the loop reaches the final
level with base `0x1F0002`, the final-level slot of the virtual page 1 holds the valid
leaf `(0x30000 << 12) | 7`, the call `update_page_table(0x20000, 1, 7)` reports success
and makes no write: the slot still holds the old leaf, not `(0x20000 << 12) | 7`. -/
theorem update_page_table_leaf_counterexample :
    update_descend sv39 1 (sv39.PT_LEVEL - 1)
        (get_base_ppn (sv39_builder_table ((0x30000 <<< 12) ||| 7)))
        (sv39_builder_table ((0x30000 <<< 12) ||| 7)) =
      some (0x1F0002, sv39_builder_table ((0x30000 <<< 12) ||| 7)) ∧
    get_pte_address sv39 0x1F0002 1 = 0x1F0002008 ∧
    (update_page_table sv39 (sv39_builder_table ((0x30000 <<< 12) ||| 7)) 0x20000 1 7).1 = 0 ∧
    read_pte (update_page_table sv39 (sv39_builder_table ((0x30000 <<< 12) ||| 7)) 0x20000 1 7).2
        0x1F0002008 = (0x30000 <<< 12) ||| 7 ∧
    read_pte (update_page_table sv39 (sv39_builder_table ((0x30000 <<< 12) ||| 7)) 0x20000 1 7).2
        0x1F0002008 ≠ leaf_entry sv39 0x20000 7 ∧
    update_page_table_steps sv39 (sv39_builder_table ((0x30000 <<< 12) ||| 7)) 0x20000 1 7 =
      [BuildStep.descend 2 0x1F0000000 ((0x1F0001 <<< 12) ||| 1),
        BuildStep.descend 1 0x1F0001000 ((0x1F0002 <<< 12) ||| 1),
        BuildStep.descend 0 0x1F0002008 ((0x30000 <<< 12) ||| 7)] := by
  refine ⟨by rfl, by rfl, by rfl, by rfl, by decide, by rfl⟩

/-- C11 amended (leaf write by `update_page_table`): for every `(ppn, vpn, flags)` and
every state in which the loop reaches the final level with base `b` and manager `m0`,
the call succeeds; if the final-level slot of `vpn` holds a word with bit 0 clear, the
call writes the leaf and the slot holds `(ppn << MEM_PAGE_LOG2_SIZE) | flags` afterwards;
if the slot holds a word with bit 0 set, the call writes nothing there and the manager
is left as the final level found it. -/
theorem update_page_table_leaf (cfg : Config) (m m0 : VMManager) (ppn vpn flags b : Nat)
    (hlevel : 1 ≤ cfg.PT_LEVEL)
    (hreach : update_descend cfg vpn (cfg.PT_LEVEL - 1) (get_base_ppn m) m = some (b, m0)) :
    (read_pte m0 (get_pte_address cfg b vpn) &&& 1 = 0 →
      update_page_table cfg m ppn vpn flags =
          (0, write_pte m0 (get_pte_address cfg b vpn) (leaf_entry cfg ppn flags)) ∧
        read_pte (update_page_table cfg m ppn vpn flags).2 (get_pte_address cfg b vpn) =
          leaf_entry cfg ppn flags) ∧
    (read_pte m0 (get_pte_address cfg b vpn) &&& 1 ≠ 0 →
      update_page_table cfg m ppn vpn flags = (0, m0)) := by
  have hn : cfg.PT_LEVEL = (cfg.PT_LEVEL - 1) + 1 := by omega
  have hrun : update_page_table cfg m ppn vpn flags = update_loop cfg ppn vpn flags 1 b m0 := by
    unfold update_page_table
    rw [hn]
    exact update_loop_of_descend cfg ppn vpn flags _ _ _ _ _ hreach
  rw [hrun, update_loop_final]
  constructor
  · intro h0
    rw [if_neg (by simp [h0])]
    exact ⟨rfl, by
      rw [read_pte_write_pte_same, Nat.mod_eq_of_lt (leaf_entry_lt cfg ppn flags)]⟩
  · intro h1
    rw [if_pos h1]

/-- Witness of C11 amended: on the table `sv39_builder_table` with an empty final-level
slot the leaf is written, and with the valid leaf `(0x30000 << 12) | 7` in the slot
nothing is. -/
theorem update_page_table_leaf_witness :
    (update_page_table sv39 (sv39_builder_table 0) 0x20000 1 7 =
        (0, write_pte (sv39_builder_table 0) (get_pte_address sv39 0x1F0002 1)
          (leaf_entry sv39 0x20000 7)) ∧
      read_pte (update_page_table sv39 (sv39_builder_table 0) 0x20000 1 7).2
        (get_pte_address sv39 0x1F0002 1) = leaf_entry sv39 0x20000 7) ∧
    update_page_table sv39 (sv39_builder_table ((0x30000 <<< 12) ||| 7)) 0x20000 1 7 =
      (0, sv39_builder_table ((0x30000 <<< 12) ||| 7)) :=
  ⟨(update_page_table_leaf sv39 (sv39_builder_table 0) (sv39_builder_table 0) 0x20000 1 7
      0x1F0002 (by decide) (by rfl)).1 (by rfl),
    (update_page_table_leaf sv39 (sv39_builder_table ((0x30000 <<< 12) ||| 7))
      (sv39_builder_table ((0x30000 <<< 12) ||| 7)) 0x20000 1 7 0x1F0002 (by decide)
      (by rfl)).2 (by decide)⟩

/-- C12 (failure of `map_p2v`): for every page `p` that is not in the cache, `map_p2v`
throws exactly when `update_page_table` reports a non-zero status, which happens exactly
when its steps contain a failed node allocation; such a step occurs only at a non-final
level whose entry has bit 0 clear. When `map_p2v` throws, the cache is unchanged and has
no entry for `p`, and the manager is the one the builder left: the page-table allocator
has served every node allocated before the failure and the failed one, nothing is given
back. -/
theorem map_p2v_failure (cfg : Config) (m : VMManager) (p flags : Nat)
    (hmiss : m.addr_mapping.lookup p = none) :
    ((map_p2v cfg m p flags).1 = Outcome.runtime_error ↔
        (update_page_table cfg (map_p2v_entry cfg m) p (map_p2v_vpn cfg m) flags).1 ≠ 0) ∧
    ((update_page_table cfg (map_p2v_entry cfg m) p (map_p2v_vpn cfg m) flags).1 ≠ 0 ↔
        (update_page_table_steps cfg (map_p2v_entry cfg m) p (map_p2v_vpn cfg m) flags).any
          BuildStep.is_alloc_failed = true) ∧
    (∀ i a w, BuildStep.alloc_failed i a w ∈
        update_page_table_steps cfg (map_p2v_entry cfg m) p (map_p2v_vpn cfg m) flags →
          1 ≤ i ∧ i < cfg.PT_LEVEL ∧ w &&& 1 = 0) ∧
    ((map_p2v cfg m p flags).1 = Outcome.runtime_error →
        (map_p2v cfg m p flags).2.addr_mapping = m.addr_mapping ∧
        (map_p2v cfg m p flags).2.addr_mapping.lookup p = none ∧
        (map_p2v cfg m p flags).2 =
          (update_page_table cfg (map_p2v_entry cfg m) p (map_p2v_vpn cfg m) flags).2 ∧
        (map_p2v cfg m p flags).2.page_table_mem_.allocated =
          m.page_table_mem_.allocated +
            (update_page_table_steps cfg (map_p2v_entry cfg m) p (map_p2v_vpn cfg m)
              flags).countP BuildStep.is_node + 1) := by
  have htr := update_page_table_traced cfg (map_p2v_entry cfg m) p (map_p2v_vpn cfg m) flags
  have hst := update_loop_traced_status cfg p (map_p2v_vpn cfg m) flags cfg.PT_LEVEL
    (get_base_ppn (map_p2v_entry cfg m)) (map_p2v_entry cfg m)
  have hcount := update_loop_traced_failed_count cfg p (map_p2v_vpn cfg m) flags cfg.PT_LEVEL
    (get_base_ppn (map_p2v_entry cfg m)) (map_p2v_entry cfg m)
  have halloc := update_loop_traced_allocated cfg p (map_p2v_vpn cfg m) flags cfg.PT_LEVEL
    (get_base_ppn (map_p2v_entry cfg m)) (map_p2v_entry cfg m)
  rw [htr] at hst hcount halloc
  have hthrow : (map_p2v cfg m p flags).1 = Outcome.runtime_error ↔
      (update_page_table cfg (map_p2v_entry cfg m) p (map_p2v_vpn cfg m) flags).1 ≠ 0 := by
    rw [map_p2v_miss cfg m p flags hmiss]
    split_ifs with hu
    · simp [hu]
    · simp only [ne_eq, false_iff]
      exact hu
  refine ⟨hthrow, hst, ?_, ?_⟩
  · intro i a w h
    exact update_loop_traced_alloc_failed cfg p (map_p2v_vpn cfg m) flags _ _ _ i a w h
  · intro hfail
    have hu := hthrow.mp hfail
    have hstate : (map_p2v cfg m p flags).2 =
        (update_page_table cfg (map_p2v_entry cfg m) p (map_p2v_vpn cfg m) flags).2 := by
      rw [map_p2v_miss cfg m p flags hmiss, if_pos hu]
    have hcache : (map_p2v cfg m p flags).2.addr_mapping = m.addr_mapping := by
      rw [hstate, update_page_table_addr_mapping]
      rfl
    refine ⟨hcache, by rw [hcache]; exact hmiss, hstate, ?_⟩
    rw [hstate, halloc, hcount, if_pos hu]
    rfl

/-- Witness of C12: the page `0x20000` on the initialised `sv39` manager whose
page-table allocator serves the root and one more node only: `map_p2v` throws, the cache
stays empty, and the allocator has served three calls instead of one. -/
theorem map_p2v_failure_witness :
    (map_p2v sv39 sv39_short 0x20000 7).1 = Outcome.runtime_error ∧
      (map_p2v sv39 sv39_short 0x20000 7).2.addr_mapping = sv39_short.addr_mapping ∧
      (map_p2v sv39 sv39_short 0x20000 7).2.addr_mapping.lookup 0x20000 = none ∧
      (map_p2v sv39 sv39_short 0x20000 7).2 =
        (update_page_table sv39 (map_p2v_entry sv39 sv39_short) 0x20000
          (map_p2v_vpn sv39 sv39_short) 7).2 ∧
      (map_p2v sv39 sv39_short 0x20000 7).2.page_table_mem_.allocated =
        sv39_short.page_table_mem_.allocated +
          (update_page_table_steps sv39 (map_p2v_entry sv39 sv39_short) 0x20000
            (map_p2v_vpn sv39 sv39_short) 7).countP BuildStep.is_node + 1 :=
  ⟨by rfl, (map_p2v_failure sv39 sv39_short 0x20000 7 (by rfl)).2.2.2 (by rfl)⟩

/-- C13 (initialisation failure status), evaluated: when both virtual-window
reservations fail (the allocator `bump_no_reserve` answers 1 to each) and every other
step succeeds, `virtual_mem_reserve` returns 1 twice, yet `init_VM` returns 0 in the
translated configuration `sv39`. -/
theorem init_VM_reserve_evaluation :
    (virtual_mem_reserve
        { blank with virtual_mem_ := bump_no_reserve sv39.ALLOC_BASE_ADDR sv39.MEM_PAGE_SIZE }
        sv39.PAGE_TABLE_BASE_ADDR 0x10000000).1 = 1 ∧
    (virtual_mem_reserve
        (virtual_mem_reserve
          { blank with virtual_mem_ := bump_no_reserve sv39.ALLOC_BASE_ADDR sv39.MEM_PAGE_SIZE }
          sv39.PAGE_TABLE_BASE_ADDR 0x10000000).2
        sv39.STARTUP_ADDR 0x40000).1 = 1 ∧
    (init_VM sv39 blank (fun _ _ _ => 0) (fun _ => 0)
        (bump sv39.PAGE_TABLE_BASE_ADDR sv39.PT_SIZE)
        (bump_no_reserve sv39.ALLOC_BASE_ADDR sv39.MEM_PAGE_SIZE) 0).1 = 0 ∧
    (init_VM sv39 blank (fun _ _ _ => 0) (fun _ => 0)
        (bump sv39.PAGE_TABLE_BASE_ADDR sv39.PT_SIZE)
        (bump_no_reserve sv39.ALLOC_BASE_ADDR sv39.MEM_PAGE_SIZE) 0).2.virtual_mem_.reserved = 2 := by
  refine ⟨by rfl, by rfl, by rfl, by rfl⟩

/-- C16 (builder consistency on forwarding entries), evaluated on the initialised `sv39`
manager. The install of the virtual page 1 allocates the node at address `0x1F0001000`
for the root slot and descends into the base `0x1F0001000 >> 12 = 0x1F0001`. The
forwarding entry it leaves in the root slot is `(0x1F0001000 << 12) | 1`, so the install
of the virtual page 2, which shares the root slot, obtains the base `0x1F0001000` from
it: it looks for its next entry at `0x1F0001000000`, not in the node at `0x1F0001000`, and
allocates another node. The page number stored in the entry is `0x1F0001000`, not the
page number `0x1F0001` of the node. -/
theorem forwarding_entry_evaluation :
    update_page_table_steps sv39 (fresh sv39) 0x20000 1 7 =
      [BuildStep.node 2 0x1F0000000 0x1F0001000, BuildStep.node 1 0x1F0001000 0x1F0002000,
        BuildStep.leaf 0x1F0002008 ((0x20000 <<< 12) ||| 7)] ∧
    0x1F0001000 >>> sv39.MEM_PAGE_LOG2_SIZE = 0x1F0001 ∧
    read_pte (update_page_table sv39 (fresh sv39) 0x20000 1 7).2 0x1F0000000 =
      (0x1F0001000 <<< 12) ||| 1 ∧
    read_pte (update_page_table sv39 (fresh sv39) 0x20000 1 7).2 0x1F0000000 >>>
      sv39.MEM_PAGE_LOG2_SIZE = 0x1F0001000 ∧
    read_pte (update_page_table sv39 (fresh sv39) 0x20000 1 7).2 0x1F0000000 >>>
      sv39.MEM_PAGE_LOG2_SIZE ≠ 0x1F0001000 >>> sv39.MEM_PAGE_LOG2_SIZE ∧
    update_page_table_steps sv39 (update_page_table sv39 (fresh sv39) 0x20000 1 7).2 0x20001 2 7 =
      [BuildStep.descend 2 0x1F0000000 ((0x1F0001000 <<< 12) ||| 1),
        BuildStep.node 1 0x1F0001000000 0x1F0003000,
        BuildStep.leaf 0x1F0003010 ((0x20001 <<< 12) ||| 7)] := by
  refine ⟨by rfl, by rfl, by rfl, by rfl, by decide, by rfl⟩

/-- C17 (builder and walker address the same slots), evaluated in `sv39` with the base
page `0x1F0000`. For the virtual address `0x200000` (virtual page 512) the builder's
level-0 address is `base + 512 * 8` and the walker's is `base + 0`; its level-1 address
is `base + 0` and the walker's is `base + 1 * 8`. For the virtual address `0x40000000`
the builder's level-2 address is `base + 0` and the walker's is `base + 1 * 8`. -/
theorem slot_address_evaluation :
    (get_pte_address sv39 0x1F0000 ((0x200000 >>> sv39.MEM_PAGE_LOG2_SIZE) >>>
        (0 * sv39.MEM_PAGE_LOG2_SIZE)) = 0x1F0001000 ∧
      get_pte_address sv39 0x1F0000 (vAddr_vpn sv39 0x200000 0) = 0x1F0000000) ∧
    (get_pte_address sv39 0x1F0000 ((0x200000 >>> sv39.MEM_PAGE_LOG2_SIZE) >>>
        (1 * sv39.MEM_PAGE_LOG2_SIZE)) = 0x1F0000000 ∧
      get_pte_address sv39 0x1F0000 (vAddr_vpn sv39 0x200000 1) = 0x1F0000008) ∧
    (get_pte_address sv39 0x1F0000 ((0x40000000 >>> sv39.MEM_PAGE_LOG2_SIZE) >>>
        (2 * sv39.MEM_PAGE_LOG2_SIZE)) = 0x1F0000000 ∧
      get_pte_address sv39 0x1F0000 (vAddr_vpn sv39 0x40000000 2) = 0x1F0000008) ∧
    get_pte_address sv39 0x1F0000 ((0x200000 >>> sv39.MEM_PAGE_LOG2_SIZE) >>>
        (0 * sv39.MEM_PAGE_LOG2_SIZE)) ≠
      get_pte_address sv39 0x1F0000 (vAddr_vpn sv39 0x200000 0) := by
  refine ⟨⟨by rfl, by rfl⟩, ⟨by rfl, by rfl⟩, ⟨by rfl, by rfl⟩, by decide⟩

/-- C19 (bounded walk and install): `page_table_walk` and `update_page_table` are total
functions of the state. With at least one level, `page_table_walk` reads at most
`PT_LEVEL` entries, whatever the RAM holds; `update_page_table` makes at most `PT_LEVEL`
loop iterations, and exactly `PT_LEVEL` when no allocation fails. -/
theorem walk_and_install_bounded (cfg : Config) (m : VMManager) (va ppn vpn flags : Nat)
    (hlevel : 1 ≤ cfg.PT_LEVEL) :
    (page_table_walk_log cfg m va).1.length ≤ cfg.PT_LEVEL ∧
    (page_table_walk_log cfg m va).2 = page_table_walk cfg m va ∧
    (update_page_table_steps cfg m ppn vpn flags).length ≤ cfg.PT_LEVEL ∧
    ((update_page_table_steps cfg m ppn vpn flags).any BuildStep.is_alloc_failed = false →
      (update_page_table_steps cfg m ppn vpn flags).length = cfg.PT_LEVEL) ∧
    (update_loop_traced cfg ppn vpn flags cfg.PT_LEVEL (get_base_ppn m) m).2 =
      update_page_table cfg m ppn vpn flags := by
  refine ⟨?_, rfl, update_loop_traced_length_le cfg ppn vpn flags _ _ _, ?_,
    update_page_table_traced cfg m ppn vpn flags⟩
  · unfold page_table_walk_log
    split_ifs
    · simp
    · have := walk_loop_reads_le cfg m va (cfg.PT_LEVEL - 1) (get_base_ppn m)
      omega
  · intro hno
    apply update_loop_traced_length_eq
    by_contra hne
    have := (update_loop_traced_status cfg ppn vpn flags cfg.PT_LEVEL (get_base_ppn m) m).mp hne
    unfold update_page_table_steps at hno
    rw [hno] at this
    exact absurd this (by simp)

/-- Witness of C19: the manager `sv39_cycle`, whose root forwards to itself: the walk
of `0x40201123` reads the same entry three times and throws "no leaf found". -/
theorem walk_and_install_bounded_witness :
    (page_table_walk_log sv39 sv39_cycle 0x40201123).1 =
      [0x1F0000008, 0x1F0000008, 0x1F0000008] ∧
    page_table_walk sv39 sv39_cycle 0x40201123 = WalkResult.page_fault PageFault.no_leaf ∧
    (page_table_walk_log sv39 sv39_cycle 0x40201123).1.length ≤ sv39.PT_LEVEL ∧
    (update_page_table_steps sv39 sv39_cycle 0x20000 1 7).length ≤ sv39.PT_LEVEL :=
  ⟨by rfl, by rfl,
    (walk_and_install_bounded sv39 sv39_cycle 0x40201123 0x20000 1 7 (by decide)).1,
    (walk_and_install_bounded sv39 sv39_cycle 0x40201123 0x20000 1 7 (by decide)).2.2.1⟩

/-! ## The claims C2, C15, C18 and C20 -/

/-- The low `n` bytes of a word read from RAM are zero when the first `n` bytes read
are. -/
theorem ram_read_low_zero (ram : RAM) :
    ∀ (size n a : Nat), n ≤ size → (∀ k, k < n → ram.mem (a + k) = 0) →
      ram.read a size % 256 ^ n = 0 := by
  intro size
  induction size with
  | zero =>
    intro n a hn _
    have : n = 0 := by omega
    subst this
    simp [RAM.read]
  | succ s ih =>
    intro n a hn h
    cases n with
    | zero => simp [Nat.mod_one]
    | succ n =>
      have h0 : ram.mem a = 0 := by simpa using h 0 (by omega)
      have hrest := ih n (a + 1) (by omega) (fun k hk => by
        have := h (k + 1) (by omega)
        rwa [show a + (k + 1) = a + 1 + k by omega] at this)
      rw [RAM.read, h0, Nat.pow_succ', Nat.zero_mod, Nat.zero_add, Nat.mul_mod_mul_left, hrest]

/-- C18 as stated fails where an entry is narrower than the eight bytes `read_pte`
reads: in the configuration `sv32` (`PTE_SIZE = 4`, 1024 entries in a node of `PT_SIZE`
bytes) on a RAM every byte of which was `0xAB`, `alloc_page_table` succeeds with the
node at `0xF0001000`, the four bytes of its last entry (the entry 1023, at
`get_pte_address(0xF0001, 1023)`) are zero, and the entry reads as the word
`0xABABABAB00000000`, not as the word 0: the upper four bytes read lie behind the
node. -/
theorem alloc_page_table_zeroed_counterexample :
    0 < sv32.CACHE_BLOCK_SIZE ∧
    alloc_page_table sv32 (fresh_dirty sv32) =
      (0, 0xF0001000, (alloc_page_table sv32 (fresh_dirty sv32)).2.2) ∧
    (1023 + 1) * sv32.PTE_SIZE ≤ sv32.PT_SIZE ∧
    get_pte_address sv32 0xF0001 1023 = 0xF0001000 + 1023 * sv32.PTE_SIZE ∧
    (∀ k, k < sv32.PTE_SIZE →
      (alloc_page_table sv32 (fresh_dirty sv32)).2.2.ram_.mem
        (0xF0001000 + 1023 * sv32.PTE_SIZE + k) = 0) ∧
    read_pte (alloc_page_table sv32 (fresh_dirty sv32)).2.2 (0xF0001000 + 1023 * sv32.PTE_SIZE) =
      0xABABABAB00000000 ∧
    read_pte (alloc_page_table sv32 (fresh_dirty sv32)).2.2 (0xF0001000 + 1023 * sv32.PTE_SIZE)
      ≠ 0 := by
  refine ⟨by decide, by rfl, by decide, by rfl, ?_, by rfl, by decide⟩
  intro k hk
  have hk4 : k < 4 := hk
  interval_cases k <;> rfl

/-- C18 amended (zero-initialised nodes): after a successful `alloc_page_table`
returning the address `a`, with a non-zero `CACHE_BLOCK_SIZE`, every byte of
`[a, a + PT_SIZE)` is 0; of every entry of the node the bytes that belong to it (the
low `min(8, PTE_SIZE)` bytes of the word `read_pte` reads) are 0; every entry whose
eight bytes read lie in the node, which is every entry when `PTE_SIZE >= 8`, reads as
the word 0; and every word read at an address of the node has bit 0 clear: it decodes
with valid = 0, is taken as absent by `update_page_table` and as an invalid entry by
`page_table_walk`. -/
theorem alloc_page_table_zeroed (cfg : Config) (m m1 : VMManager) (a : Nat)
    (hblock : 0 < cfg.CACHE_BLOCK_SIZE) (h : alloc_page_table cfg m = (0, a, m1)) :
    (∀ x, a ≤ x → x < a + cfg.PT_SIZE → m1.ram_.mem x = 0) ∧
    (∀ k, (k + 1) * cfg.PTE_SIZE ≤ cfg.PT_SIZE →
      read_pte m1 (a + k * cfg.PTE_SIZE) % 256 ^ (min 8 cfg.PTE_SIZE) = 0) ∧
    (∀ k, 8 ≤ cfg.PTE_SIZE → (k + 1) * cfg.PTE_SIZE ≤ cfg.PT_SIZE →
      read_pte m1 (a + k * cfg.PTE_SIZE) = 0) ∧
    (∀ off, off + 8 ≤ cfg.PT_SIZE → read_pte m1 (a + off) = 0) ∧
    (∀ off, off < cfg.PT_SIZE →
      (PTE_t.decode cfg (read_pte m1 (a + off))).v = false ∧
      read_pte m1 (a + off) &&& 1 = 0 ∧
      ∀ va, walk_body cfg va (read_pte m1 (a + off)) =
        WalkStep.finish (WalkResult.page_fault PageFault.invalid_entry)) := by
  have hbytes := alloc_page_table_bytes cfg m m1 a hblock h
  have hword : ∀ off, off + 8 ≤ cfg.PT_SIZE → read_pte m1 (a + off) = 0 := by
    intro off hoff
    exact ram_read_zero m1.ram_ 8 (a + off) (fun k hk => hbytes _ (by omega) (by omega))
  refine ⟨hbytes, ?_, ?_, hword, ?_⟩
  · intro k hk
    have hmul : (k + 1) * cfg.PTE_SIZE = k * cfg.PTE_SIZE + cfg.PTE_SIZE := by ring
    exact ram_read_low_zero m1.ram_ 8 (min 8 cfg.PTE_SIZE) (a + k * cfg.PTE_SIZE)
      (Nat.min_le_left _ _) (fun j hj => hbytes _ (by omega) (by
        have := Nat.min_le_right 8 cfg.PTE_SIZE
        omega))
  · intro k h8 hk
    have hmul : (k + 1) * cfg.PTE_SIZE = k * cfg.PTE_SIZE + cfg.PTE_SIZE := by ring
    exact hword _ (by omega)
  · intro off hoff
    have hlow := testBit_zero_of_low_byte m1.ram_ (a + off) 7 (hbytes _ (by omega) (by omega))
    have hv : (PTE_t.decode cfg (read_pte m1 (a + off))).v = false := by
      show (read_pte m1 (a + off)).testBit 0 = false
      rw [Nat.testBit_zero]
      unfold read_pte
      simp [hlow]
    refine ⟨hv, ?_, fun va => walk_body_invalid cfg va _ hv⟩
    rw [Nat.and_one_is_mod]
    exact hlow

/-- Witness of C18 amended: the first node allocated after initialisation in `sv39` on a
RAM every byte of which was `0xAB`. The node at `0x1F0001000` reads `0xAB` bytes and
words before the call and zero bytes and words after it, its last entry included. -/
theorem alloc_page_table_zeroed_witness :
    (fresh_dirty sv39).ram_.mem 0x1F0001000 = 0xAB ∧
    read_pte (fresh_dirty sv39) 0x1F0001000 = 0xABABABABABABABAB ∧
    read_pte (fresh_dirty sv39) (0x1F0001000 + 511 * sv39.PTE_SIZE) = 0xABABABABABABABAB ∧
    (∀ x, 0x1F0001000 ≤ x → x < 0x1F0001000 + sv39.PT_SIZE →
      (alloc_page_table sv39 (fresh_dirty sv39)).2.2.ram_.mem x = 0) ∧
    read_pte (alloc_page_table sv39 (fresh_dirty sv39)).2.2 (0x1F0001000 + 0 * sv39.PTE_SIZE)
      = 0 ∧
    read_pte (alloc_page_table sv39 (fresh_dirty sv39)).2.2
      (0x1F0001000 + 511 * sv39.PTE_SIZE) = 0 ∧
    (∀ off, off < sv39.PT_SIZE →
      (PTE_t.decode sv39 (read_pte (alloc_page_table sv39 (fresh_dirty sv39)).2.2
        (0x1F0001000 + off))).v = false ∧
      read_pte (alloc_page_table sv39 (fresh_dirty sv39)).2.2 (0x1F0001000 + off) &&& 1 = 0 ∧
      ∀ va, walk_body sv39 va (read_pte (alloc_page_table sv39 (fresh_dirty sv39)).2.2
          (0x1F0001000 + off)) =
        WalkStep.finish (WalkResult.page_fault PageFault.invalid_entry)) :=
  ⟨by rfl, by rfl, by rfl,
    (alloc_page_table_zeroed sv39 (fresh_dirty sv39)
      (alloc_page_table sv39 (fresh_dirty sv39)).2.2 0x1F0001000 (by decide) (by rfl)).1,
    (alloc_page_table_zeroed sv39 (fresh_dirty sv39)
      (alloc_page_table sv39 (fresh_dirty sv39)).2.2 0x1F0001000 (by decide)
      (by rfl)).2.2.1 0 (by decide) (by decide),
    (alloc_page_table_zeroed sv39 (fresh_dirty sv39)
      (alloc_page_table sv39 (fresh_dirty sv39)).2.2 0x1F0001000 (by decide)
      (by rfl)).2.2.1 511 (by decide) (by decide),
    (alloc_page_table_zeroed sv39 (fresh_dirty sv39)
      (alloc_page_table sv39 (fresh_dirty sv39)).2.2 0x1F0001000 (by decide)
      (by rfl)).2.2.2.2⟩

/-- A loop of `update_page_table` that reports success has passed the non-final levels
without a failed allocation. -/
theorem update_descend_of_status (cfg : Config) (ppn vpn flags : Nat) :
    ∀ (k cur : Nat) (m : VMManager),
      (update_loop cfg ppn vpn flags (k + 1) cur m).1 = 0 →
        (update_descend cfg vpn k cur m).isSome = true := by
  intro k
  induction k with
  | zero => intro cur m _; rfl
  | succ k ih =>
    intro cur m h
    rw [update_loop] at h
    dsimp only at h
    rw [update_descend]
    dsimp only
    split_ifs at h with h1 h2 h3
    · rw [if_pos h1]
      exact ih _ _ h
    · exact absurd h2 (by simp)
    · rw [if_neg h1, if_neg h3]
      exact ih _ _ h

/-- The leaf steps of the loop are those of its pass through the final level. -/
theorem update_loop_traced_leaf_of_descend (cfg : Config) (ppn vpn flags : Nat) :
    ∀ (k cur : Nat) (m : VMManager) (b : Nat) (m0 : VMManager),
      update_descend cfg vpn k cur m = some (b, m0) →
        (update_loop_traced cfg ppn vpn flags (k + 1) cur m).1.countP BuildStep.is_leaf =
          (update_loop_traced cfg ppn vpn flags 1 b m0).1.countP BuildStep.is_leaf := by
  intro k
  induction k with
  | zero =>
    intro cur m b m0 h
    simp only [update_descend, Option.some.injEq, Prod.mk.injEq] at h
    obtain ⟨rfl, rfl⟩ := h
    rfl
  | succ k ih =>
    intro cur m b m0 h
    rw [update_descend] at h
    dsimp only at h
    rw [update_loop_traced]
    dsimp only
    split_ifs at h with h1 h2
    · rw [if_pos h1]
      simpa [BuildStep.is_leaf] using ih _ _ _ _ h
    · rw [if_neg h1, if_neg (by omega), if_neg h2]
      simpa [BuildStep.is_leaf] using ih _ _ _ _ h

/-- The pass through the final level writes a leaf exactly when the slot holds a word
with bit 0 clear. -/
theorem update_loop_traced_final_leaf (cfg : Config) (ppn vpn flags b : Nat) (m0 : VMManager) :
    (update_loop_traced cfg ppn vpn flags 1 b m0).1.countP BuildStep.is_leaf =
      if read_pte m0 (get_pte_address cfg b vpn) &&& 1 = 0 then 1 else 0 := by
  rw [update_loop_traced]
  simp only [Nat.zero_mul, Nat.shiftRight_zero, update_loop_traced, if_true]
  by_cases h0 : read_pte m0 (get_pte_address cfg b vpn) &&& 1 = 0
  · rw [if_neg (not_not.mpr h0), if_pos h0]
    simp [BuildStep.is_leaf]
  · rw [if_pos h0, if_neg h0]
    simp [BuildStep.is_leaf]

theorem map_p2v_steps_hit (cfg : Config) (m : VMManager) (p flags v : Nat)
    (h : m.addr_mapping.lookup p = some v) : map_p2v_steps cfg m p flags = [] := by
  unfold map_p2v_steps
  rw [h]

theorem map_p2v_steps_miss (cfg : Config) (m : VMManager) (p flags : Nat)
    (h : m.addr_mapping.lookup p = none) :
    map_p2v_steps cfg m p flags =
      update_page_table_steps cfg (map_p2v_entry cfg m) p (map_p2v_vpn cfg m) flags := by
  unfold map_p2v_steps
  rw [h]

theorem map_p2v_steps_leaf_count (cfg : Config) (m : VMManager) (p flags : Nat) :
    (map_p2v_steps cfg m p flags).countP BuildStep.is_leaf ≤ 1 := by
  cases hp : m.addr_mapping.lookup p with
  | some v0 => rw [map_p2v_steps_hit cfg m p flags v0 hp]; simp
  | none =>
    rw [map_p2v_steps_miss cfg m p flags hp]
    exact update_loop_traced_leaf_count cfg p _ flags _ _ _

/-- A returning `map_p2v` on a cache miss: the builder reported success, and the manager
left is the one of the builder with the new cache entry. -/
theorem map_p2v_miss_ret (cfg : Config) (m m1 : VMManager) (p flags v : Nat)
    (hmiss : m.addr_mapping.lookup p = none)
    (h : map_p2v cfg m p flags = (Outcome.ret v, m1)) :
    (update_page_table cfg (map_p2v_entry cfg m) p (map_p2v_vpn cfg m) flags).1 = 0 ∧
    v = map_p2v_vpn cfg m ∧
    m1.ram_ =
      (update_page_table cfg (map_p2v_entry cfg m) p (map_p2v_vpn cfg m) flags).2.ram_ := by
  rw [map_p2v_miss cfg m p flags hmiss] at h
  split_ifs at h with h1
  · simp at h
  · simp only [Prod.mk.injEq, Outcome.ret.injEq] at h
    obtain ⟨hv, hm⟩ := h
    refine ⟨by simpa using h1, hv.symm, ?_⟩
    rw [← hm]

/-- The builder's call in terms of its pass through the final level. -/
theorem update_page_table_of_descend (cfg : Config) (m m0 : VMManager) (ppn vpn flags b : Nat)
    (hlevel : 1 ≤ cfg.PT_LEVEL)
    (hreach : update_descend cfg vpn (cfg.PT_LEVEL - 1) (get_base_ppn m) m = some (b, m0)) :
    update_page_table cfg m ppn vpn flags =
      if read_pte m0 (get_pte_address cfg b vpn) &&& 1 ≠ 0 then (0, m0)
      else (0, write_pte m0 (get_pte_address cfg b vpn) (leaf_entry cfg ppn flags)) := by
  have hn : cfg.PT_LEVEL = (cfg.PT_LEVEL - 1) + 1 := by omega
  unfold update_page_table
  rw [hn, update_loop_of_descend cfg ppn vpn flags _ _ _ _ _ hreach, update_loop_final]

theorem update_page_table_steps_leaf (cfg : Config) (m m0 : VMManager) (ppn vpn flags b : Nat)
    (hlevel : 1 ≤ cfg.PT_LEVEL)
    (hreach : update_descend cfg vpn (cfg.PT_LEVEL - 1) (get_base_ppn m) m = some (b, m0)) :
    (update_page_table_steps cfg m ppn vpn flags).countP BuildStep.is_leaf =
      if read_pte m0 (get_pte_address cfg b vpn) &&& 1 = 0 then 1 else 0 := by
  have hn : cfg.PT_LEVEL = (cfg.PT_LEVEL - 1) + 1 := by omega
  unfold update_page_table_steps
  rw [hn, update_loop_traced_leaf_of_descend cfg ppn vpn flags _ _ _ _ _ hreach,
    update_loop_traced_final_leaf]

/-- C2 as stated fails in its last part: a returning `map_p2v` need not install a leaf
entry. In the table `sv39_builder_table`, whose final-level slot of the virtual page 1
holds the valid leaf `(0x30000 << 12) | 7`, the page `0x20000` is not in the cache,
`map_p2v(0x20000, 7)` returns 1, its three steps are descents with no leaf write, the
RAM is as before, and the second call returns 1 again: no leaf entry was installed for
`0x20000`, and the slot holds the leaf of another page. -/
theorem map_p2v_idempotent_counterexample :
    (sv39_builder_table ((0x30000 <<< 12) ||| 7)).addr_mapping.lookup 0x20000 = none ∧
    (map_p2v sv39 (sv39_builder_table ((0x30000 <<< 12) ||| 7)) 0x20000 7).1 = Outcome.ret 1 ∧
    map_p2v_steps sv39 (sv39_builder_table ((0x30000 <<< 12) ||| 7)) 0x20000 7 =
      [BuildStep.descend 2 0x1F0000000 ((0x1F0001 <<< 12) ||| 1),
        BuildStep.descend 1 0x1F0001000 ((0x1F0002 <<< 12) ||| 1),
        BuildStep.descend 0 0x1F0002008 ((0x30000 <<< 12) ||| 7)] ∧
    (map_p2v_steps sv39 (sv39_builder_table ((0x30000 <<< 12) ||| 7)) 0x20000 7).countP
      BuildStep.is_leaf = 0 ∧
    (map_p2v sv39 (sv39_builder_table ((0x30000 <<< 12) ||| 7)) 0x20000 7).2.ram_ =
      (sv39_builder_table ((0x30000 <<< 12) ||| 7)).ram_ ∧
    read_pte (map_p2v sv39 (sv39_builder_table ((0x30000 <<< 12) ||| 7)) 0x20000 7).2
      0x1F0002008 = (0x30000 <<< 12) ||| 7 ∧
    read_pte (map_p2v sv39 (sv39_builder_table ((0x30000 <<< 12) ||| 7)) 0x20000 7).2
      0x1F0002008 ≠ leaf_entry sv39 0x20000 7 ∧
    (map_p2v sv39 (map_p2v sv39 (sv39_builder_table ((0x30000 <<< 12) ||| 7)) 0x20000 7).2
      0x20000 7).1 = Outcome.ret 1 ∧
    map_p2v_steps sv39 (map_p2v sv39 (sv39_builder_table ((0x30000 <<< 12) ||| 7)) 0x20000 7).2
      0x20000 7 = [] := by
  refine ⟨by rfl, by rfl, by rfl, by rfl, by rfl, by rfl, by decide, by rfl, by rfl⟩

/-- C2 amended (idempotence of `map_p2v`): if a call `map_p2v(p, flags)` returns `v` and
leaves the manager `m1`, then the same call on `m1` returns `v` again, leaves `m1`
exactly as it is (RAM, both allocators and the cache) and runs no step of the builder,
so it installs nothing. The first call installs at most one leaf entry: none when `p`
was in the cache already; on a cache miss, with at least one level, the builder reaches
the final level, and it installs exactly one leaf entry, `(p << MEM_PAGE_LOG2_SIZE) |
flags` in the final-level slot of `v`, when that slot holds a word with bit 0 clear, and
none, leaving the RAM as the final level found it, when the slot holds a word with bit
0 set. -/
theorem map_p2v_idempotent (cfg : Config) (m m1 m0 : VMManager) (p flags v b : Nat)
    (h : map_p2v cfg m p flags = (Outcome.ret v, m1)) :
    map_p2v cfg m1 p flags = (Outcome.ret v, m1) ∧
    map_p2v_steps cfg m1 p flags = [] ∧
    (map_p2v_steps cfg m p flags).countP BuildStep.is_leaf ≤ 1 ∧
    (m.addr_mapping.lookup p ≠ none → map_p2v_steps cfg m p flags = [] ∧ m1 = m) ∧
    (m.addr_mapping.lookup p = none → 1 ≤ cfg.PT_LEVEL →
      (update_descend cfg (map_p2v_vpn cfg m) (cfg.PT_LEVEL - 1)
        (get_base_ppn (map_p2v_entry cfg m)) (map_p2v_entry cfg m)).isSome = true) ∧
    (m.addr_mapping.lookup p = none → 1 ≤ cfg.PT_LEVEL →
      update_descend cfg (map_p2v_vpn cfg m) (cfg.PT_LEVEL - 1)
        (get_base_ppn (map_p2v_entry cfg m)) (map_p2v_entry cfg m) = some (b, m0) →
      v = map_p2v_vpn cfg m ∧
      ((map_p2v_steps cfg m p flags).countP BuildStep.is_leaf =
        if read_pte m0 (get_pte_address cfg b v) &&& 1 = 0 then 1 else 0) ∧
      (read_pte m0 (get_pte_address cfg b v) &&& 1 = 0 →
        m1.ram_ = (write_pte m0 (get_pte_address cfg b v) (leaf_entry cfg p flags)).ram_ ∧
        read_pte m1 (get_pte_address cfg b v) = leaf_entry cfg p flags) ∧
      (read_pte m0 (get_pte_address cfg b v) &&& 1 ≠ 0 → m1.ram_ = m0.ram_)) := by
  have hl := map_p2v_lookup_result cfg m m1 p flags v h
  refine ⟨map_p2v_hit cfg m1 p flags v hl, map_p2v_steps_hit cfg m1 p flags v hl,
    map_p2v_steps_leaf_count cfg m p flags, ?_, ?_, ?_⟩
  · intro hne
    cases hp : m.addr_mapping.lookup p with
    | none => exact absurd hp hne
    | some v0 =>
      rw [map_p2v_hit cfg m p flags v0 hp] at h
      simp only [Prod.mk.injEq] at h
      exact ⟨map_p2v_steps_hit cfg m p flags v0 hp, h.2.symm⟩
  · intro hmiss hlevel
    have hst := (map_p2v_miss_ret cfg m m1 p flags v hmiss h).1
    have hn : cfg.PT_LEVEL = (cfg.PT_LEVEL - 1) + 1 := by omega
    unfold update_page_table at hst
    rw [hn] at hst
    exact update_descend_of_status cfg p _ flags _ _ _ hst
  · intro hmiss hlevel hreach
    obtain ⟨_, hv, hram⟩ := map_p2v_miss_ret cfg m m1 p flags v hmiss h
    subst hv
    have hrun := update_page_table_of_descend cfg (map_p2v_entry cfg m) m0 p
      (map_p2v_vpn cfg m) flags b hlevel hreach
    refine ⟨rfl, ?_, ?_, ?_⟩
    · rw [map_p2v_steps_miss cfg m p flags hmiss]
      exact update_page_table_steps_leaf cfg (map_p2v_entry cfg m) m0 p _ flags b hlevel hreach
    · intro h0
      rw [hrun, if_neg (by simp [h0])] at hram
      refine ⟨hram, ?_⟩
      unfold read_pte
      rw [hram]
      have := read_pte_write_pte_same m0 (get_pte_address cfg b (map_p2v_vpn cfg m))
        (leaf_entry cfg p flags)
      unfold read_pte at this
      rw [this, Nat.mod_eq_of_lt (leaf_entry_lt cfg p flags)]
    · intro h1
      rw [hrun, if_pos h1] at hram
      exact hram

/-- Witness of C2 amended, for the page `0x20000`: on the initialised `sv39` manager the
first call writes one leaf, at `0x1F0002008`, and the second call changes nothing; on
the table `sv39_builder_table` with a valid leaf in that slot the first call writes no
leaf and leaves the RAM as it was. -/
theorem map_p2v_idempotent_witness :
    map_p2v sv39 (map_p2v sv39 (fresh sv39) 0x20000 7).2 0x20000 7 =
      (Outcome.ret 1, (map_p2v sv39 (fresh sv39) 0x20000 7).2) ∧
    map_p2v_steps sv39 (map_p2v sv39 (fresh sv39) 0x20000 7).2 0x20000 7 = [] ∧
    (map_p2v_steps sv39 (fresh sv39) 0x20000 7).countP BuildStep.is_leaf = 1 ∧
    read_pte (map_p2v sv39 (fresh sv39) 0x20000 7).2 (get_pte_address sv39 0x1F0002 1) =
      leaf_entry sv39 0x20000 7 ∧
    (map_p2v_steps sv39 (sv39_builder_table ((0x30000 <<< 12) ||| 7)) 0x20000 7).countP
      BuildStep.is_leaf = 0 ∧
    (map_p2v sv39 (sv39_builder_table ((0x30000 <<< 12) ||| 7)) 0x20000 7).2.ram_ =
      (sv39_builder_table ((0x30000 <<< 12) ||| 7)).ram_ :=
  ⟨(map_p2v_idempotent sv39 (fresh sv39) (map_p2v sv39 (fresh sv39) 0x20000 7).2
      ((update_descend sv39 1 2 0x1F0000 (map_p2v_entry sv39 (fresh sv39))).getD (0, blank)).2
      0x20000 7 1 0x1F0002 (by rfl)).1,
    (map_p2v_idempotent sv39 (fresh sv39) (map_p2v sv39 (fresh sv39) 0x20000 7).2
      ((update_descend sv39 1 2 0x1F0000 (map_p2v_entry sv39 (fresh sv39))).getD (0, blank)).2
      0x20000 7 1 0x1F0002 (by rfl)).2.1,
    Eq.trans ((map_p2v_idempotent sv39 (fresh sv39) (map_p2v sv39 (fresh sv39) 0x20000 7).2
      ((update_descend sv39 1 2 0x1F0000 (map_p2v_entry sv39 (fresh sv39))).getD (0, blank)).2
      0x20000 7 1 0x1F0002 (by rfl)).2.2.2.2.2 (by rfl) (by decide) (by rfl)).2.1 (by rfl),
    (((map_p2v_idempotent sv39 (fresh sv39) (map_p2v sv39 (fresh sv39) 0x20000 7).2
      ((update_descend sv39 1 2 0x1F0000 (map_p2v_entry sv39 (fresh sv39))).getD (0, blank)).2
      0x20000 7 1 0x1F0002 (by rfl)).2.2.2.2.2 (by rfl) (by decide) (by rfl)).2.2.1
      (by rfl)).2,
    Eq.trans ((map_p2v_idempotent sv39 (sv39_builder_table ((0x30000 <<< 12) ||| 7))
      (map_p2v sv39 (sv39_builder_table ((0x30000 <<< 12) ||| 7)) 0x20000 7).2
      (map_p2v_entry sv39 (sv39_builder_table ((0x30000 <<< 12) ||| 7)))
      0x20000 7 1 0x1F0002 (by rfl)).2.2.2.2.2 (by rfl) (by decide) (by rfl)).2.1 (by rfl),
    ((map_p2v_idempotent sv39 (sv39_builder_table ((0x30000 <<< 12) ||| 7))
      (map_p2v sv39 (sv39_builder_table ((0x30000 <<< 12) ||| 7)) 0x20000 7).2
      (map_p2v_entry sv39 (sv39_builder_table ((0x30000 <<< 12) ||| 7)))
      0x20000 7 1 0x1F0002 (by rfl)).2.2.2.2.2 (by rfl) (by decide) (by rfl)).2.2.2
      (by decide)⟩

end Vortex
